import Mathlib

/-!
Verification of the `no-one-likes-parallel` (NOLP) serial-terminal application.

This file gives a shallow embedding, in Lean, of the application's data model
and update logic, translated from the Rust sources:
  `common.rs`, `serial.rs`, `terminal.rs`, `menu.rs`, `device_list.rs`,
  `help.rs`, `main.rs`.

Modelling conventions:
  * Machine integers (`u8`, `u16`, `u32`, `usize`) are modelled as `Nat`;
    where overflow/underflow of an operation matters, it is modelled
    explicitly (an underflowing `usize` subtraction, which panics in debug
    builds, is modelled as a panic).
  * A Rust panic (out-of-bounds index, `unwrap`/`expect` on `None`,
    `unreachable!`, division by zero) is modelled by returning `none` from
    an `Option`-valued function.
  * Shared `Arc<Mutex<...>>` cells are modelled as explicit state threaded
    through the functions.  In the single-threaded abstraction of the UI
    loop an uncontended `try_lock` always succeeds, so lock acquisition is
    modelled as succeeding; the I/O actions of the serial bridge (open,
    read, write), whose outcomes are decided by the external device, are
    modelled as explicit input parameters.
  * Rust `String` values are modelled as Lean `String`s; `str::len` (a byte
    count) is modelled via `String.utf8ByteSize`, `String::pop` (removing
    the last character) via `String.dropRight 1`, and `str::to_lowercase`
    by per-character lowercasing (faithful on ASCII data).
-/

namespace Nolp

/-! ## common.rs: shared data model -/

/-- `Parity` from `common.rs`. -/
inductive Parity
  | odd
  | even
  | none
deriving DecidableEq, Repr

/-- `Mode` from `common.rs`. -/
inductive Mode
  | hex
  | octal
  | ascii
  | decimal
deriving DecidableEq, Repr

/-- `Screen` from `common.rs` (`Menu` is the `#[default]` variant). -/
inductive Screen
  | menu
  | help
  | terminal
  | deviceList
deriving DecidableEq, Repr

/-- `PortParameters` from `common.rs`; the numeric fields are `u32`/`u8`. -/
structure PortParameters where
  name : Option String
  baud_rate : Option Nat
  data_bits : Option Nat
  stop_bits : Option Nat
  parity : Option Parity
  mode : Option Mode
deriving DecidableEq, Repr

/-- `PortParameters::default()`: every field `None`. -/
def PortParameters.default : PortParameters :=
  ⟨Option.none, Option.none, Option.none, Option.none, Option.none, Option.none⟩

/-- `State` from `common.rs` (`Running` is the `#[default]` variant). -/
inductive State
  | running
  | pausing
  | stopping
  | error (msg : String)
  | switching (s : Screen) (p : Option PortParameters)
deriving DecidableEq, Repr

/-- `Message` from `common.rs`.  `Rx` carries raw bytes (`Vec<u8>`). -/
inductive Message
  | quit
  | enter
  | pause
  | resume
  | rx (bytes : List Nat)
  | backspace
  | input (c : Char)
  | nextElement
  | previousElement
  | switching (s : Screen) (p : Option PortParameters)
deriving DecidableEq, Repr

/-- `Parity::to_string` from `common.rs`. -/
def Parity.toStr : Parity → String
  | .even => "Even"
  | .odd => "Odd"
  | .none => "None"

/-- `Mode::to_string` from `common.rs`. -/
def Mode.toStr : Mode → String
  | .ascii => "Ascii"
  | .decimal => "Decimal"
  | .hex => "Hex"
  | .octal => "Octal"

/-- `ratatui::layout::Rect` (only the fields the update logic reads). -/
structure Rect where
  x : Nat
  y : Nat
  width : Nat
  height : Nat
deriving DecidableEq, Repr

/-- `Rect::default()`. -/
def Rect.default : Rect := ⟨0, 0, 0, 0⟩

/-- `ratatui::widgets::ScrollbarState` reduced to the two fields the models
use: the content length set at construction and the position set via
`ScrollbarState::position`. -/
structure ScrollState where
  contentLength : Nat
  position : Nat
deriving DecidableEq, Repr

/-- Keyboard-shortcut constants from `common.rs`. -/
def HELP_CHAR : Char := 'h'
def QUIT_CHAR : Char := 'q'
def MENU_CHAR : Char := 'n'
def PAUSE_CHAR : Char := 'p'
def RESUME_CHAR : Char := 'r'
def DEVICE_LIST_CHAR : Char := 'l'
def NEXT_ELEMENT_CHAR : Char := ']'
def PREVIOUS_ELEMENT_CHAR : Char := '['

/-- Rust `str::len`: the UTF-8 byte count of a string. -/
def strLen (s : String) : Nat := s.utf8ByteSize

/-! ## serial.rs: the bridge thread -/

/-- Outcome of one blocking-with-timeout device I/O call (`read`/`write`),
as distinguished by the bridge: success, a timeout-class error
(`ErrorKind::TimedOut`), or any other I/O error. -/
inductive IoResult
  | ok
  | timedOut
  | otherError
deriving DecidableEq, Repr

/-- The shared cells the bridge thread works on: the two byte buffers and
the error slot (`SerialBuffer` twice and `SerialError` in `common.rs`). -/
structure BridgeState where
  rx : List Nat
  tx : List Nat
  error : Option String
deriving DecidableEq, Repr

/-- The externally-determined events of one iteration of the bridge loop in
`read_write_port`: the result of the device write, the result of the device
read together with the byte the read leaves in the 1-byte buffer, and the
value of the shared flag as observed at the end of the cycle. -/
structure CycleIO where
  wres : IoResult
  rres : IoResult
  rbyte : Nat
  flagAfter : Bool
deriving DecidableEq, Repr

/-- One iteration of the `while f == true` loop of `read_write_port`
(`serial.rs` lines 132–179), with `try_lock` acquisitions succeeding.
Note the write branch: after the `match` on the write result there is an
unconditional `(**tx_mutex).clear()`, so `tx` is cleared whenever it was
non-empty, regardless of the write outcome. -/
def bridgeCycle (st : BridgeState) (io : CycleIO) : BridgeState :=
  let st1 :=
    if st.tx.length > 0 then
      let afterMatch :=
        match io.wres with
        | .ok => { st with tx := [] }
        | .timedOut => st
        | .otherError => { st with error := some " Write failed " }
      { afterMatch with tx := [] }
    else st
  match io.rres with
  | .ok => { st1 with rx := st1.rx ++ [io.rbyte] }
  | .timedOut => st1
  | .otherError => { st1 with error := some " Read failed " }

/-- The bridge loop of `read_write_port`: while the flag last read `true`,
perform a cycle and re-read the flag; the list argument is the finite
prefix of external cycle outcomes being observed. -/
def bridgeLoop (st : BridgeState) (f : Bool) : List CycleIO → BridgeState
  | [] => st
  | io :: rest => if f then bridgeLoop (bridgeCycle st io) io.flagAfter rest else st

/-- Result of `port.open()` at the top of the bridge thread. -/
inductive OpenResult
  | opened
  | openFailed
deriving DecidableEq, Repr

/-- The body of the thread spawned by `read_write_port` (`serial.rs` lines
112–182): read the flag, attempt to open the port — on failure write
`" Failed to open port "` into the error slot and return without entering
the loop — and on success run the read/write loop. -/
def readWritePort (st : BridgeState) (flag0 : Bool) (openRes : OpenResult)
    (ios : List CycleIO) : BridgeState :=
  match openRes with
  | .openFailed => { st with error := some " Failed to open port " }
  | .opened => bridgeLoop st flag0 ios

/-! ## terminal.rs: the Terminal screen model -/

/-- `DataDirection` from `terminal.rs`. -/
inductive DataDirection
  | input
  | output
deriving DecidableEq, Repr

/-- `DataByte` from `terminal.rs`. -/
structure DataByte where
  value : Nat
  direction : DataDirection
deriving DecidableEq, Repr

/-- The essential data of a configured `serialport::SerialPortBuilder` as
assembled by `get_port` in `serial.rs`. -/
structure PortSpec where
  portName : String
  baud : Nat
  dataBits : Nat
  stopBits : Nat
  portParity : Parity
deriving DecidableEq, Repr

/-- `get_port` from `serial.rs`: unwraps every parameter field (panic when
absent) and maps the numeric fields through matches whose default arms are
`unreachable!()` (panic when out of range).  When none of those panics
fire, the function always returns `Ok`. -/
def getPort (p : PortParameters) : Option PortSpec := do
  let d ← p.data_bits
  let db ← match d with
    | 5 | 6 | 7 | 8 => some d
    | _ => Option.none
  let s ← p.stop_bits
  let sb ← match s with
    | 1 | 2 => some s
    | _ => Option.none
  let pr ← p.parity
  let nm ← p.name
  let br ← p.baud_rate
  pure ⟨nm, br, db, sb, pr⟩

/-- `TerminalModel` from `terminal.rs`.  The `input` string is modelled as
its list of characters (`String::push`/`pop` act on characters while
`String::len` counts bytes); the `listener` slot records only presence. -/
structure TerminalModel where
  state : State
  bounds : Rect
  input : List Char
  buffer : List DataByte
  port : Option PortSpec
  parameters : PortParameters
  listener : Bool
deriving DecidableEq, Repr

/-- `TerminalModel::default()`. -/
def TerminalModel.default : TerminalModel :=
  { state := .running
    bounds := Rect.default
    input := []
    buffer := []
    port := Option.none
    parameters := PortParameters.default
    listener := false }

/-- `TerminalModel::new`: builds the port from the parameters (`get_port`
panics rather than returning `Err` when a field is absent or out of range,
so the `Err` arm that would set an error state is dead code) and starts the
listener, which always constructs successfully. -/
def TerminalModel.new (params : PortParameters) : Option TerminalModel :=
  match getPort params with
  | some p =>
      some { TerminalModel.default with
              parameters := params, port := some p, listener := true }
  | Option.none => Option.none

/-- UTF-8 encoding of one character — the bytes `String::push` adds and
`String::into_bytes` exposes. -/
def utf8Enc (c : Char) : List Nat :=
  let v := c.toNat
  if v < 0x80 then [v]
  else if v < 0x800 then
    [0xC0 + v / 64, 0x80 + v % 64]
  else if v < 0x10000 then
    [0xE0 + v / 4096, 0x80 + (v / 64) % 64, 0x80 + v % 64]
  else
    [0xF0 + v / 262144, 0x80 + (v / 4096) % 64, 0x80 + (v / 64) % 64, 0x80 + v % 64]

/-- The byte-length (`String::len`) of the terminal's input line. -/
def terminalInputLen (m : TerminalModel) : Nat :=
  (m.input.flatMap utf8Enc).length

/-- The per-byte column width used both by `get_encoding` and by
`update_buffer_input` in `terminal.rs`. -/
def textWidth : Mode → Nat
  | .hex => 3
  | .octal => 6
  | _ => 4

/-- The projected rendered line count computed by `update_buffer_input`
(`terminal.rs` lines 344–349): `(buffer.len() + input_bytes.len() - 1) /
(width / text_width)`, plus one when `width` is not a multiple of
`text_width`.  Meaningful under the side conditions of
`updateBufferInput`. -/
def relLength (m : TerminalModel) (mode : Mode) : Nat :=
  let input_bytes := m.input.flatMap utf8Enc
  let text_width := textWidth mode
  let rel_width := m.bounds.width / text_width
  let base := (m.buffer.length + input_bytes.length - 1) / rel_width
  if m.bounds.width % text_width ≠ 0 then base + 1 else base

/-- `update_buffer_input` from `terminal.rs` (lines 333–361): clear the
whole display buffer when the projected line count exceeds the visible
height, then append the input bytes tagged `Input`.  Panics modelled:
`mode` unwrap; `height - 5` underflow (a `usize` overflow panic in debug
builds); division by `width / text_width = 0`. -/
def updateBufferInput (m : TerminalModel) : Option TerminalModel :=
  match m.parameters.mode with
  | Option.none => Option.none
  | some mode =>
    let input_bytes := m.input.flatMap utf8Enc
    let text_width := textWidth mode
    let width := m.bounds.width
    let height := m.bounds.height
    if height < 5 then Option.none
    else
      let rel_height := height - 5
      let rel_width := width / text_width
      if rel_width = 0 then Option.none
      else
        let rel_length := relLength m mode
        let buf := if rel_length > rel_height then [] else m.buffer
        some { m with buffer := buf ++ input_bytes.map (fun v => ⟨v, .input⟩) }

/-- `<TerminalModel as Tea>::update` (`terminal.rs` lines 135–169).  Every
arm finishes with `return self.get_state()`.  `Message::Rx` is not matched
by any arm and falls into the final `_ => {}` no-op (the would-be handler
`update_buffer_output` is an empty function). -/
def TerminalModel.update (m : TerminalModel) : Message → Option (TerminalModel × State)
  | .input c =>
      if m.state ≠ .pausing ∧ terminalInputLen m < 50 then
        let m' := { m with input := m.input ++ [c] }
        some (m', m'.state)
      else some (m, m.state)
  | .backspace =>
      if terminalInputLen m > 0 ∧ m.state ≠ .pausing then
        let m' := { m with input := m.input.dropLast }
        some (m', m'.state)
      else some (m, m.state)
  | .pause =>
      if m.state ≠ .pausing then
        let m' := { m with buffer := [], state := .pausing }
        some (m', m'.state)
      else some (m, m.state)
  | .resume =>
      if m.state ≠ .running then
        let m' := { m with state := .running }
        some (m', m'.state)
      else some (m, m.state)
  | .enter =>
      if terminalInputLen m > 0 then
        match updateBufferInput m with
        | Option.none => Option.none
        | some m1 =>
          let m' := { m1 with input := [] }
          some (m', m'.state)
      else some (m, m.state)
  | _ => some (m, m.state)

/-! ## menu.rs: the Menu screen model -/

/-- `MenuInput` from `menu.rs`. -/
structure MenuInput where
  limit : Nat
  title : String
  invalid : Bool
  value : String
  placeholder : String
deriving DecidableEq, Repr

/-- `MenuInput::default()`. -/
def MenuInput.default : MenuInput :=
  { limit := 100, invalid := false, title := "", value := "", placeholder := "" }

/-- `MenuModel` from `menu.rs`. -/
structure MenuModel where
  state : State
  split : Bool
  bounds : Rect
  offset : Nat
  selected : Nat
  minWidth : Nat
  minHeight : Nat
  scroll : ScrollState
  inputs : List MenuInput
deriving DecidableEq, Repr

/-- `CONTENT_LENGTH` from `menu.rs`. -/
def MENU_CONTENT_LENGTH : Nat := 20

/-- `MenuModel::default()`: the six input fields (Port, Baudrate, Data
bits, Stop bits, Parity, Mode) with their titles, placeholders and length
limits, nothing selected beyond index 0. -/
def MenuModel.default : MenuModel :=
  { state := .running
    split := true
    bounds := Rect.default
    offset := 0
    selected := 0
    minWidth := 0
    minHeight := 0
    scroll := ⟨MENU_CONTENT_LENGTH, 0⟩
    inputs :=
      [ { MenuInput.default with title := "Port", placeholder := "COM4" }
      , { MenuInput.default with limit := 10, title := "Baudrate", placeholder := "9600" }
      , { MenuInput.default with limit := 1, title := "Data bits", placeholder := "8" }
      , { MenuInput.default with limit := 1, title := "Stop bits", placeholder := "1" }
      , { MenuInput.default with limit := 4, title := "Parity", placeholder := "Even" }
      , { MenuInput.default with limit := 7, title := "Mode", placeholder := "Ascii" } ] }

/-- Set the `value` of the input at index `i` (`model.inputs[i].value = v`). -/
def setValueAt (inputs : List MenuInput) (i : Nat) (v : String) : List MenuInput :=
  match inputs.get? i with
  | some inp => inputs.set i { inp with value := v }
  | Option.none => inputs

/-- `MenuModel::new` (`menu.rs` lines 174–198): a default model whose six
values are pre-filled from the given parameters (empty string when a field
is `None`, the field's `to_string` rendering otherwise). -/
def MenuModel.new (p : PortParameters) : MenuModel :=
  let m := MenuModel.default
  let i0 := setValueAt m.inputs 0 (p.name.getD "")
  let i1 := setValueAt i0 1 (match p.baud_rate with | some b => toString b | Option.none => "")
  let i2 := setValueAt i1 2 (match p.data_bits with | some d => toString d | Option.none => "")
  let i3 := setValueAt i2 3 (match p.stop_bits with | some s => toString s | Option.none => "")
  let i4 := setValueAt i3 4 (match p.parity with | some q => q.toStr | Option.none => "")
  let i5 := setValueAt i4 5 (match p.mode with | some md => md.toStr | Option.none => "")
  { m with inputs := i5 }

/-- `SelectElement` from `menu.rs`/`device_list.rs`. -/
inductive SelectElement
  | previous
  | next
deriving DecidableEq, Repr

/-- `UpdateElement` from `menu.rs`. -/
inductive UpdateElement
  | sub
  | add (c : Char)
deriving DecidableEq, Repr

/-- `char::to_digit(10)`: `Some` exactly for the ASCII digits. -/
def charToDigit (c : Char) : Option Nat :=
  if c.isDigit then some (c.toNat - 48) else Option.none

/-- `validate_input` from `menu.rs` (lines 575–591): per-field character
class check, keyed on the selected index. -/
def menuValidateInput (m : MenuModel) (c : Char) : Bool :=
  match m.selected with
  | 1 => (charToDigit c).isSome
  | 2 => match charToDigit c with
         | some v => decide (5 ≤ v ∧ v ≤ 8)
         | Option.none => false
  | 3 => match charToDigit c with
         | some v => decide (1 ≤ v ∧ v ≤ 2)
         | Option.none => false
  | _ => true

/-- `update_scroll` from `menu.rs` (lines 508–528). -/
def menuUpdateScroll (m : MenuModel) : MenuModel :=
  match m.split with
  | true =>
    let adjustment := if m.selected % 2 ≠ 0 then m.selected - 1 else m.selected
    let offset := (adjustment / 2) * 3
    { m with offset := offset, scroll := { m.scroll with position := offset } }
  | false =>
    let offset := if m.selected ≠ 7 then m.selected * 3 else m.selected * 3 - 2
    { m with offset := offset, scroll := { m.scroll with position := offset } }

/-- `select_element` from `menu.rs` (lines 442–473): cyclic selection over
the `inputs.len() + 2` elements (fields plus Cancel and Start), followed by
a scroll update when the area is short. -/
def menuSelectElement (m : MenuModel) (dir : SelectElement) : MenuModel :=
  let n := m.inputs.length
  let selected' :=
    match dir with
    | .previous => if m.selected = 0 then n + 1 else m.selected - 1
    | .next => if m.selected = n + 1 then 0 else m.selected + 1
  let m1 := { m with selected := selected' }
  let min_height := if m1.split then MENU_CONTENT_LENGTH / 2 + 1 else MENU_CONTENT_LENGTH
  if m1.bounds.height ≤ min_height then menuUpdateScroll m1 else m1

/-- `update_element` from `menu.rs` (lines 490–506).  Both arms index
`model.inputs[model.selected]`, which panics when the selected element is
one of the two buttons (index `inputs.len()` or `inputs.len() + 1`). -/
def menuUpdateElement (m : MenuModel) (u : UpdateElement) : Option MenuModel :=
  match u with
  | .add c =>
    let is_valid := menuValidateInput m c
    match m.inputs.get? m.selected with
    | Option.none => Option.none
    | some element =>
      let within_limit := strLen element.value < element.limit
      if within_limit ∧ is_valid then
        some { m with inputs := m.inputs.set m.selected { element with value := element.value.push c } }
      else some m
  | .sub =>
    match m.inputs.get? m.selected with
    | Option.none => Option.none
    | some element =>
      if strLen element.value > 0 then
        some { m with inputs := m.inputs.set m.selected { element with value := element.value.dropRight 1 } }
      else some m

/-- `str::to_lowercase`, modelled per character. -/
def rustToLower (s : String) : String :=
  ⟨s.data.map Char.toLower⟩

/-- The parity-string check of `validate_values` (`menu.rs` lines 605–611). -/
def parityValid (s : String) : Bool :=
  s = "even" ∨ s = "odd" ∨ s = "none"

/-- The mode-string check of `validate_values` (`menu.rs` lines 613–619). -/
def modeValid (s : String) : Bool :=
  s = "ascii" ∨ s = "decimal" ∨ s = "hex" ∨ s = "octal"

/-- `validate_values` from `menu.rs` (lines 593–622): mark each of the
first `inputs.len() - 2` fields invalid when empty, then check the parity
and mode fields (`inputs[4]`, `inputs[5]`) against their admissible
lowercase spellings.  Indexing `inputs[4]`/`inputs[5]` (and, for lists of
fewer than two elements, the loop bound `inputs.len() - 2` underflowing)
panics unless the model has at least six inputs. -/
def menuValidateValues (m : MenuModel) : Option (MenuModel × Bool) :=
  if 6 ≤ m.inputs.length then
    let n := m.inputs.length
    let inputs1 := m.inputs.mapIdx fun i inp =>
      if i < n - 2 then { inp with invalid := inp.value.isEmpty } else inp
    let validA := (inputs1.take (n - 2)).all fun inp => !inp.value.isEmpty
    let i4 := (inputs1.get? 4).getD MenuInput.default
    let pOk := parityValid (rustToLower i4.value)
    let inputs2 := inputs1.set 4 { i4 with invalid := !pOk }
    let i5 := (inputs2.get? 5).getD MenuInput.default
    let mOk := modeValid (rustToLower i5.value)
    let inputs3 := inputs2.set 5 { i5 with invalid := !mOk }
    some ({ m with inputs := inputs3 }, validA && pOk && mOk)
  else Option.none

/-- The parity `match` of `get_port_parameters` (`menu.rs` lines 383–388);
its default arm is `unreachable!()`. -/
def parityFromStr (s : String) : Option Parity :=
  if s = "even" then some .even
  else if s = "odd" then some .odd
  else if s = "none" then some Parity.none
  else Option.none

/-- The mode `match` of `get_port_parameters` (`menu.rs` lines 389–395);
its default arm is `unreachable!()`. -/
def modeFromStr (s : String) : Option Mode :=
  if s = "ascii" then some .ascii
  else if s = "hex" then some .hex
  else if s = "decimal" then some .decimal
  else if s = "octal" then some .octal
  else Option.none

/-- Value of a digit string. -/
def digitsVal (cs : List Char) : Nat :=
  cs.foldl (fun a c => a * 10 + (c.toNat - 48)) 0

/-- Rust's integer `FromStr`: an optional leading `+`, then one or more
ASCII digits, rejecting values beyond the type's maximum. -/
def parseNatStr (s : String) (maxVal : Nat) : Option Nat :=
  let cs := match s.data with
    | '+' :: rest => rest
    | cs => cs
  if cs.isEmpty then Option.none
  else if cs.all Char.isDigit then
    let v := digitsVal cs
    if v ≤ maxVal then some v else Option.none
  else Option.none

/-- `str::parse::<u32>`. -/
def parseU32 (s : String) : Option Nat := parseNatStr s 4294967295

/-- `str::parse::<u8>`. -/
def parseU8 (s : String) : Option Nat := parseNatStr s 255

/-- `get_port_parameters` from `menu.rs` (lines 379–405): parse the six
values, panicking (`unwrap`/`unreachable!`) on a missing index, an
unparsable number, or an unrecognised parity/mode spelling. -/
def getPortParameters (m : MenuModel) : Option PortParameters := do
  let v0 ← m.inputs.get? 0
  let v1 ← m.inputs.get? 1
  let v2 ← m.inputs.get? 2
  let v3 ← m.inputs.get? 3
  let v4 ← m.inputs.get? 4
  let v5 ← m.inputs.get? 5
  let baud ← parseU32 v1.value
  let db ← parseU8 v2.value
  let sb ← parseU8 v3.value
  let pr ← parityFromStr (rustToLower v4.value)
  let md ← modeFromStr (rustToLower v5.value)
  pure ⟨some v0.value, some baud, some db, some sb, some pr, some md⟩

/-- `update_state` from `menu.rs` (lines 530–545): Enter on Cancel stops
the application; Enter on Start validates the values and either switches to
Terminal with the parsed parameters or records an error state. -/
def menuUpdateState (m : MenuModel) : Option MenuModel :=
  let cancel_btn := m.inputs.length
  let start_btn := cancel_btn + 1
  if m.selected = cancel_btn then some { m with state := .stopping }
  else if m.selected = start_btn then
    match menuValidateValues m with
    | Option.none => Option.none
    | some (m1, valid) =>
      if valid then
        match getPortParameters m1 with
        | Option.none => Option.none
        | some ps => some { m1 with state := .switching .terminal (some ps) }
      else some { m1 with state := .error " Invalid input (ctrl+h) for help " }
  else some m

/-- `<MenuModel as Tea>::update` (`menu.rs` lines 212–231); every arm
finishes with `return self.get_state()`. -/
def MenuModel.update (m : MenuModel) : Message → Option (MenuModel × State)
  | .previousElement =>
      let m' := menuSelectElement m .previous
      some (m', m'.state)
  | .nextElement =>
      let m' := menuSelectElement m .next
      some (m', m'.state)
  | .input c => (menuUpdateElement m (.add c)).map fun m' => (m', m'.state)
  | .backspace => (menuUpdateElement m .sub).map fun m' => (m', m'.state)
  | .enter => (menuUpdateState m).map fun m' => (m', m'.state)
  | .quit =>
      let m' := { m with state := .stopping }
      some (m', m'.state)
  | _ => some (m, m.state)

/-! ## device_list.rs: the DeviceList screen model -/

/-- `DeviceListModel` from `device_list.rs`. -/
structure DeviceListModel where
  state : State
  bounds : Rect
  offset : Nat
  selected : Nat
  devices : List String
  scroll : ScrollState
deriving DecidableEq, Repr

/-- `CONTENT_LENGTH` from `device_list.rs`. -/
def DL_CONTENT_LENGTH : Nat := 20

/-- `DeviceListModel::default()`. -/
def DeviceListModel.default : DeviceListModel :=
  { state := .running
    bounds := Rect.default
    offset := 0
    selected := 0
    devices := []
    scroll := ⟨DL_CONTENT_LENGTH, 0⟩ }

/-- `select_element` from `device_list.rs` (lines 132–160): a no-op on an
empty device list, otherwise cyclic selection over the devices, plus a
scroll update when the area is short. -/
def dlSelectElement (m : DeviceListModel) (dir : SelectElement) : DeviceListModel :=
  if m.devices.length = 0 then m
  else
    let selected' :=
      match dir with
      | .previous => if m.selected = 0 then m.devices.length - 1 else m.selected - 1
      | .next => if m.selected = m.devices.length - 1 then 0 else m.selected + 1
    let m1 := { m with selected := selected' }
    if m1.bounds.height ≤ DL_CONTENT_LENGTH then
      { m1 with offset := m1.selected, scroll := { m1.scroll with position := m1.selected } }
    else m1

/-- `switch_screen` from `device_list.rs` (lines 205–215): Enter on a
non-empty list switches to Menu carrying the selected device's name (all
other parameter fields `None`); on an empty list it switches to Menu with
no parameters.  Indexing `devices[selected]` panics when out of range. -/
def dlSwitchScreen (m : DeviceListModel) : Option DeviceListModel :=
  if m.devices.length > 0 then
    match m.devices.get? m.selected with
    | Option.none => Option.none
    | some port_name =>
        some { m with state :=
                .switching .menu (some { PortParameters.default with name := some port_name }) }
  else
    some { m with state := .switching .menu Option.none }

/-- `<DeviceListModel as Tea>::update` (`device_list.rs` lines 85–99). -/
def DeviceListModel.update (m : DeviceListModel) : Message → Option (DeviceListModel × State)
  | .previousElement =>
      let m' := dlSelectElement m .previous
      some (m', m'.state)
  | .nextElement =>
      let m' := dlSelectElement m .next
      some (m', m'.state)
  | .enter => (dlSwitchScreen m).map fun m' => (m', m'.state)
  | _ => some (m, m.state)

/-! ## help.rs: the Help screen model -/

/-- `HelpModel` from `help.rs`. -/
structure HelpModel where
  state : State
  bounds : Rect
  offset : Nat
  caller : Screen
  scroll : ScrollState
  parameters : Option PortParameters
deriving DecidableEq, Repr

/-- `CONTENT_LENGTH` from `help.rs`. -/
def HELP_CONTENT_LENGTH : Nat := 18

/-- `HelpModel::default()`. -/
def HelpModel.default : HelpModel :=
  { state := .running
    bounds := Rect.default
    offset := 0
    caller := .menu
    scroll := ⟨HELP_CONTENT_LENGTH, 0⟩
    parameters := Option.none }

/-- `HelpModel::new` (`help.rs` lines 61–67). -/
def HelpModel.new (caller : Screen) (parameters : Option PortParameters) : HelpModel :=
  { HelpModel.default with caller := caller, parameters := parameters }

/-- `<HelpModel as Tea>::update` (`help.rs` lines 80–104): the scroll
offset cycles over `0..=CONTENT_LENGTH`, and Enter switches back to the
remembered caller with the remembered parameters. -/
def HelpModel.update (m : HelpModel) : Message → Option (HelpModel × State)
  | .previousElement =>
      let offset' := if m.offset = 0 then HELP_CONTENT_LENGTH else m.offset - 1
      let m' := { m with offset := offset', scroll := { m.scroll with position := offset' } }
      some (m', m'.state)
  | .nextElement =>
      let offset' := if m.offset ≥ HELP_CONTENT_LENGTH then 0 else m.offset + 1
      let m' := { m with offset := offset', scroll := { m.scroll with position := offset' } }
      some (m', m'.state)
  | .enter =>
      let m' := { m with state := .switching m.caller m.parameters }
      some (m', m'.state)
  | _ => some (m, m.state)

/-! ## main.rs: Scene, key-to-message mapping, application loop -/

/-- `Scene` from `main.rs` (lines 63–70): the active screen tag and the
four (at most one populated) screen-model slots. -/
structure Scene where
  screen : Screen
  help : Option HelpModel
  menu : Option MenuModel
  terminal : Option TerminalModel
  device_list : Option DeviceListModel
deriving DecidableEq, Repr

/-- `Scene::default()` (`main.rs` lines 87–97): Menu active with a default
menu model. -/
def Scene.default : Scene :=
  { screen := .menu
    help := Option.none
    menu := some MenuModel.default
    terminal := Option.none
    device_list := Option.none }

/-- A `crossterm` key code, reduced to the shapes `get_message`
distinguishes. -/
inductive KeyCode
  | char (c : Char)
  | backKey
  | enterKey
  | other
deriving DecidableEq, Repr

/-- A key-press event: the code plus whether the CONTROL modifier is
held. -/
structure KeyPress where
  ctrl : Bool
  code : KeyCode
deriving DecidableEq, Repr

/-- `get_parameters` from `main.rs` (lines 236–242): read back the
parameters remembered by the active Help or Terminal model (unwrapping the
slot, a panic when it is empty), `None` for the other screens.  The outer
`Option` is the panic; the inner one is the function's `Option` result. -/
def getParameters (scene : Scene) : Option (Option PortParameters) :=
  match scene.screen with
  | .help =>
      match scene.help with
      | some h => some h.parameters
      | Option.none => Option.none
  | .terminal =>
      match scene.terminal with
      | some t => some (some t.parameters)
      | Option.none => Option.none
  | _ => some Option.none

/-- The second `match` of `get_message` (`main.rs` lines 224–233), applied
to the key code regardless of modifiers: element movement, pause/resume,
plain character input, backspace and enter; any other code produces no
message. -/
def plainKeyMessage (k : KeyPress) : Option (Option Message) :=
  match k.code with
  | .char c =>
      if c = PREVIOUS_ELEMENT_CHAR then some (some .previousElement)
      else if c = NEXT_ELEMENT_CHAR then some (some .nextElement)
      else if c = RESUME_CHAR then some (some .resume)
      else if c = PAUSE_CHAR then some (some .pause)
      else some (some (.input c))
  | .backKey => some (some .backspace)
  | .enterKey => some (some .enter)
  | .other => some Option.none

/-- `get_message` from `main.rs` (lines 203–234): with CONTROL held, the
global shortcuts quit / device list / menu / help are recognised first
(the latter two carrying `get_parameters`); every other key falls through
to `plainKeyMessage`. -/
def getMessage (scene : Scene) (k : KeyPress) : Option (Option Message) :=
  if k.ctrl then
    if k.code = .char QUIT_CHAR then some (some .quit)
    else if k.code = .char DEVICE_LIST_CHAR then
      some (some (.switching .deviceList Option.none))
    else if k.code = .char MENU_CHAR then
      match getParameters scene with
      | Option.none => Option.none
      | some p => some (some (.switching .menu p))
    else if k.code = .char HELP_CHAR then
      match getParameters scene with
      | Option.none => Option.none
      | some p => some (some (.switching .help p))
    else plainKeyMessage k
  else plainKeyMessage k

/-- `switch_screen` from `main.rs` (lines 312–370), together with the
shared serial cells it touches: a no-op when the target equals the active
screen; otherwise the connection flag is cleared when leaving Terminal
(`close_connection`, whose uncontended `try_lock` succeeds), the previous
model slots are dropped, and a freshly constructed model for the target is
installed.  The Terminal arm `expect`s the parameters (panic on `None`)
and records them in the shared parameter cell while raising the flag
(`open_connection`). -/
def switchScreen (scene : Scene) (new : Screen) (pp : Option PortParameters)
    (flag : Bool) (sp : PortParameters) : Option (Scene × Bool × PortParameters) :=
  if scene.screen = new then some (scene, flag, sp)
  else
    let flag1 := if scene.screen = .terminal then false else flag
    match new with
    | .menu =>
        let model := match pp with
          | some p => MenuModel.new p
          | Option.none => MenuModel.default
        some ({ scene with
                  help := Option.none
                  terminal := Option.none
                  device_list := Option.none
                  menu := some model
                  screen := new },
              flag1, sp)
    | .deviceList =>
        some ({ scene with
                  menu := Option.none
                  help := Option.none
                  terminal := Option.none
                  device_list := some DeviceListModel.default
                  screen := new },
              flag1, sp)
    | .help =>
        some ({ scene with
                  menu := Option.none
                  terminal := Option.none
                  device_list := Option.none
                  help := some (HelpModel.new scene.screen pp)
                  screen := new },
              flag1, sp)
    | .terminal =>
        match pp with
        | Option.none => Option.none
        | some params =>
            match TerminalModel.new params with
            | Option.none => Option.none
            | some t =>
                some ({ scene with
                          help := Option.none
                          menu := Option.none
                          device_list := Option.none
                          terminal := some t
                          screen := new },
                      true, params)

/-- The screen dispatch of `update` in `main.rs` (lines 379–396): unwrap
the active screen's model slot (panic when empty), run its `update`, and
store the updated model back. -/
def sceneModelUpdate (scene : Scene) (msg : Message) : Option (Scene × State) :=
  match scene.screen with
  | .menu =>
      match scene.menu with
      | Option.none => Option.none
      | some m => (m.update msg).map fun r => ({ scene with menu := some r.1 }, r.2)
  | .deviceList =>
      match scene.device_list with
      | Option.none => Option.none
      | some m => (m.update msg).map fun r => ({ scene with device_list := some r.1 }, r.2)
  | .help =>
      match scene.help with
      | Option.none => Option.none
      | some m => (m.update msg).map fun r => ({ scene with help := some r.1 }, r.2)
  | .terminal =>
      match scene.terminal with
      | Option.none => Option.none
      | some m => (m.update msg).map fun r => ({ scene with terminal := some r.1 }, r.2)

/-- The mutable state of `nolp_main`: the scene, the loop's `state`
variable, and the shared serial flag and parameter cells. -/
structure AppState where
  scene : Scene
  state : State
  flag : Bool
  serialParams : PortParameters
deriving DecidableEq, Repr

/-- The initial state of `nolp_main`/`main`: default scene, `Running`,
flag down, default parameters. -/
def appInit : AppState :=
  { scene := Scene.default
    state := .running
    flag := false
    serialParams := PortParameters.default }

/-- `update` from `main.rs` (lines 372–404): run the active model's
update, store the resulting state, and when it is a `Switching` signal
consume it immediately by switching screens and resetting the state to
`Running`. -/
def mainUpdate (a : AppState) (msg : Message) : Option AppState :=
  match sceneModelUpdate a.scene msg with
  | Option.none => Option.none
  | some (scene1, st) =>
    match st with
    | .switching s p =>
        match switchScreen scene1 s p a.flag a.serialParams with
        | Option.none => Option.none
        | some (scene2, f2, sp2) =>
            some { a with scene := scene2, state := .running, flag := f2, serialParams := sp2 }
    | _ => some { a with scene := scene1, state := st }

/-- The `NolpEvent::User` arm of the `nolp_main` loop (lines 506–513):
map the key to a message; `Quit` stops the loop, `Switching` goes straight
to `switch_screen`, and every other message goes through `update`. -/
def step (a : AppState) (k : KeyPress) : Option AppState :=
  match getMessage a.scene k with
  | Option.none => Option.none
  | some Option.none => some a
  | some (some .quit) => some { a with state := .stopping }
  | some (some (.switching s p)) =>
      (switchScreen a.scene s p a.flag a.serialParams).map fun r =>
        { a with scene := r.1, flag := r.2.1, serialParams := r.2.2 }
  | some (some m) => mainUpdate a m

/-- The application loop, driven by a sequence of user key events from the
initial state. -/
def run (ks : List KeyPress) : Option AppState :=
  ks.foldlM step appInit

/-- Run a screen model's `update` over a sequence of messages, stopping at
the first panic. -/
def runUpdates {α : Type} (upd : α → Message → Option (α × State))
    (m : α) (msgs : List Message) : Option α :=
  msgs.foldlM (fun s msg => (upd s msg).map Prod.fst) m

/-! ## Scene invariants -/

/-- Whether a `State` is a `Switching` transition signal. -/
def State.isSwitchingState : State → Bool
  | .switching _ _ => true
  | _ => false

/-- Exactly the screen-model slot named by the active `Screen` tag is
populated; the other three are empty. -/
def sceneSlotsOk (s : Scene) : Bool :=
  match s.screen with
  | .menu => s.menu.isSome && (s.help.isNone && (s.terminal.isNone && s.device_list.isNone))
  | .help => s.help.isSome && (s.menu.isNone && (s.terminal.isNone && s.device_list.isNone))
  | .terminal => s.terminal.isSome && (s.menu.isNone && (s.help.isNone && s.device_list.isNone))
  | .deviceList => s.device_list.isSome && (s.menu.isNone && (s.help.isNone && s.terminal.isNone))

/-- A live Help model never names Help itself as its caller, and when the
caller is Terminal it carries the parameters needed to return there. -/
def helpOk (s : Scene) : Bool :=
  match s.help with
  | some h =>
      (if h.caller = Screen.help then false else true) &&
      (if h.caller = Screen.terminal then h.parameters.isSome else true)
  | Option.none => true

/-- No live screen model rests in a `Switching` state: the loop consumes
`Switching` signals immediately, tearing the emitting model down. -/
def restingOk (s : Scene) : Bool :=
  (match s.menu with
    | some m => ! m.state.isSwitchingState
    | Option.none => true) &&
  ((match s.help with
    | some h => ! h.state.isSwitchingState
    | Option.none => true) &&
   ((match s.terminal with
    | some t => ! t.state.isSwitchingState
    | Option.none => true) &&
    (match s.device_list with
    | some d => ! d.state.isSwitchingState
    | Option.none => true)))

/-- The inductive invariant of the application loop's scene. -/
def SceneInv (s : Scene) : Prop :=
  sceneSlotsOk s = true ∧ helpOk s = true ∧ restingOk s = true

/-- The step function of Help's `NextElement`/`PreviousElement` arms. -/
def helpScrollStep (m : HelpModel) (dir : SelectElement) : HelpModel :=
  let offset' :=
    match dir with
    | .previous => if m.offset = 0 then HELP_CONTENT_LENGTH else m.offset - 1
    | .next => if m.offset ≥ HELP_CONTENT_LENGTH then 0 else m.offset + 1
  { m with offset := offset', scroll := { m.scroll with position := offset' } }

/-! ## Concrete fixtures used by the claim theorems -/

/-- Fully specified parameters in `Ascii` mode (Scenario A of the spec). -/
def asciiParams : PortParameters :=
  ⟨some "COM4", some 9600, some 8, some 1, some Parity.even, some Mode.ascii⟩

/-- The Terminal model `TerminalModel::new(asciiParams)` constructs. -/
def asciiTerminal : TerminalModel :=
  { TerminalModel.default with
      parameters := asciiParams
      port := some ⟨"COM4", 9600, 8, 1, Parity.even⟩
      listener := true }

/-- A default menu with the six values filled in and the Start button
(index 7) selected. -/
def menuWithValues (v0 v1 v2 v3 v4 v5 : String) : MenuModel :=
  { MenuModel.default with
      selected := 7
      inputs :=
        [ { MenuInput.default with title := "Port", placeholder := "COM4", value := v0 }
        , { MenuInput.default with limit := 10, title := "Baudrate", placeholder := "9600", value := v1 }
        , { MenuInput.default with limit := 1, title := "Data bits", placeholder := "8", value := v2 }
        , { MenuInput.default with limit := 1, title := "Stop bits", placeholder := "1", value := v3 }
        , { MenuInput.default with limit := 4, title := "Parity", placeholder := "Even", value := v4 }
        , { MenuInput.default with limit := 7, title := "Mode", placeholder := "Ascii", value := v5 } ] }

/-- A six-field menu whose values are all non-empty and whose parity/mode
spellings are valid, but whose data-bits value `"3"` is outside the 5–8
range the spec requires. -/
def outOfRangeMenu : MenuModel :=
  menuWithValues "COM4" "9600" "3" "1" "Even" "Ascii"

/-- Scenario A's menu: `COM4 / 9600 / 8 / 1 / Even / Ascii`, Start
selected. -/
def scenarioAMenu : MenuModel :=
  menuWithValues "COM4" "9600" "8" "1" "Even" "Ascii"

/-- Scenario B's menu: as Scenario A but with the data-bits field left
empty. -/
def scenarioBMenu : MenuModel :=
  menuWithValues "COM4" "9600" "" "1" "Even" "Ascii"

/-- A plain (no modifier) character key press. -/
def keyChar (c : Char) : KeyPress := ⟨false, KeyCode.char c⟩

/-- Key presses that fill the menu form with Scenario A's values and move
the selection to the Start button: type each field, stepping between
fields and onto Start with `]` (`NextElement`). -/
def typingKeys : List KeyPress :=
  ['C', 'O', 'M', '4', ']', '9', '6', '0', '0', ']', '8', ']', '1', ']',
   'E', 'v', 'e', 'n', ']', 'A', 's', 'c', 'i', 'i', ']', ']'].map keyChar

/-- The application state after typing Scenario A's values and pressing
Enter on Start: the Terminal screen is active with a fresh model, the
serial flag is up, and the shared parameters carry the configuration. -/
def terminalAppState : AppState :=
  { scene :=
      { screen := .terminal
        help := Option.none
        menu := Option.none
        terminal := some asciiTerminal
        device_list := Option.none }
    state := .running
    flag := true
    serialParams := asciiParams }

/-- The application state after `typingKeys`: the menu holds Scenario A's
values with the Start button selected (the short default bounds kept the
scroll following the selection). -/
def menuReadyAppState : AppState :=
  { scene :=
      { screen := .menu
        help := Option.none
        menu := some { (menuWithValues "COM4" "9600" "8" "1" "Even" "Ascii") with
                        offset := 9, scroll := ⟨20, 9⟩ }
        terminal := Option.none
        device_list := Option.none }
    state := .running
    flag := false
    serialParams := PortParameters.default }

/-- The scene `switch_screen` installs for the DeviceList target. -/
def dlScene : Scene :=
  { screen := .deviceList
    help := Option.none
    menu := Option.none
    terminal := Option.none
    device_list := some DeviceListModel.default }

/-- The parameters `get_port_parameters` parses out of `outOfRangeMenu`. -/
def outOfRangeParams : PortParameters :=
  ⟨some "COM4", some 9600, some 3, some 1, some Parity.even, some Mode.ascii⟩

/-! ## Helper lemmas -/

/-- Iterating a cyclic successor: a function that acts as `+ d (mod n)` on
`{0, …, n-1}` reaches `(s + k*d) % n` after `k` steps. -/
theorem iterate_cyc_mod {n d : Nat} (f : Nat → Nat)
    (hf : ∀ s, s < n → f s = (s + d) % n) :
    ∀ k s, s < n → f^[k] s = (s + k * d) % n := by
  intro k
  induction k with
  | zero =>
      intro s hs
      simpa using (Nat.mod_eq_of_lt hs).symm
  | succ k ih =>
      intro s hs
      have hn : 0 < n := Nat.lt_of_le_of_lt (Nat.zero_le s) hs
      rw [Function.iterate_succ_apply, hf s hs, ih _ (Nat.mod_lt _ hn), Nat.mod_add_mod]
      congr 1
      ring

/-- A cyclic step applied `n` times is the identity on `{0, …, n-1}`. -/
theorem iterate_cyc_id {n d : Nat} (f : Nat → Nat)
    (hf : ∀ s, s < n → f s = (s + d) % n) (s : Nat) (hs : s < n) :
    f^[n] s = s := by
  rw [iterate_cyc_mod f hf n s hs, Nat.mul_comm, Nat.add_mul_mod_self_right]
  exact Nat.mod_eq_of_lt hs

/-- `update_scroll` does not touch the menu's inputs. -/
theorem menuUpdateScroll_inputs (m : MenuModel) :
    (menuUpdateScroll m).inputs = m.inputs := by
  unfold menuUpdateScroll
  rcases h : m.split <;> simp [h]

/-- `update_scroll` does not touch the menu's selection. -/
theorem menuUpdateScroll_selected (m : MenuModel) :
    (menuUpdateScroll m).selected = m.selected := by
  unfold menuUpdateScroll
  rcases h : m.split <;> simp [h]

/-- `select_element` (menu) does not touch the inputs. -/
theorem menuSelectElement_inputs (m : MenuModel) (dir : SelectElement) :
    (menuSelectElement m dir).inputs = m.inputs := by
  unfold menuSelectElement
  dsimp only
  split <;> split
  all_goals first
    | rw [menuUpdateScroll_inputs]
    | rfl

/-- The selection after `select_element` (menu): cyclic over
`inputs.len() + 2` positions. -/
theorem menuSelectElement_selected (m : MenuModel) (dir : SelectElement) :
    (menuSelectElement m dir).selected =
      match dir with
      | .previous => if m.selected = 0 then m.inputs.length + 1 else m.selected - 1
      | .next => if m.selected = m.inputs.length + 1 then 0 else m.selected + 1 := by
  unfold menuSelectElement
  dsimp only
  split <;> split
  all_goals first
    | rw [menuUpdateScroll_selected]
    | rfl

/-- Iterating `select_element` (menu) preserves the inputs and steps the
selection through the corresponding cyclic successor. -/
theorem menuSelect_iter (dir : SelectElement) (m : MenuModel) (k : Nat) :
    ((fun x => menuSelectElement x dir)^[k] m).inputs = m.inputs ∧
    ((fun x => menuSelectElement x dir)^[k] m).selected =
      (fun s => match dir with
        | SelectElement.previous => if s = 0 then m.inputs.length + 1 else s - 1
        | SelectElement.next => if s = m.inputs.length + 1 then 0 else s + 1)^[k]
        m.selected := by
  induction k with
  | zero => exact ⟨rfl, rfl⟩
  | succ k ih =>
      rw [Function.iterate_succ_apply', Function.iterate_succ_apply']
      refine ⟨?_, ?_⟩
      · rw [menuSelectElement_inputs, ih.1]
      · rw [menuSelectElement_selected, ih.1, ih.2]

/-- Running a model's `update` over `k` copies of one message is `k`
iterations of the per-message step, provided the step never panics. -/
theorem runUpdates_replicate {α : Type} (upd : α → Message → Option (α × State))
    (msg : Message) (f : α → α)
    (hf : ∀ m, (upd m msg).map Prod.fst = some (f m)) (k : Nat) (m : α) :
    runUpdates upd m (List.replicate k msg) = some (f^[k] m) := by
  induction k generalizing m with
  | zero => rfl
  | succ k ih =>
      rw [List.replicate_succ]
      unfold runUpdates at *
      rw [List.foldlM_cons, hf]
      simpa [Function.iterate_succ_apply] using ih (f m)

/-- `select_element` (device list) does not touch the devices. -/
theorem dlSelectElement_devices (m : DeviceListModel) (dir : SelectElement) :
    (dlSelectElement m dir).devices = m.devices := by
  unfold dlSelectElement
  dsimp only
  split
  · rfl
  · split <;> rfl

/-- The selection after `select_element` (device list) on a non-empty
list: cyclic over the devices. -/
theorem dlSelectElement_selected (m : DeviceListModel) (dir : SelectElement)
    (hne : m.devices.length ≠ 0) :
    (dlSelectElement m dir).selected =
      match dir with
      | .previous => if m.selected = 0 then m.devices.length - 1 else m.selected - 1
      | .next => if m.selected = m.devices.length - 1 then 0 else m.selected + 1 := by
  unfold dlSelectElement
  dsimp only
  rw [if_neg hne]
  split <;> rfl

/-- Iterating `select_element` (device list) on a non-empty list preserves
the devices and steps the selection cyclically. -/
theorem dlSelect_iter (dir : SelectElement) (m : DeviceListModel) (k : Nat)
    (hne : m.devices.length ≠ 0) :
    ((fun x => dlSelectElement x dir)^[k] m).devices = m.devices ∧
    ((fun x => dlSelectElement x dir)^[k] m).selected =
      (fun s => match dir with
        | SelectElement.previous => if s = 0 then m.devices.length - 1 else s - 1
        | SelectElement.next => if s = m.devices.length - 1 then 0 else s + 1)^[k]
        m.selected := by
  induction k with
  | zero => exact ⟨rfl, rfl⟩
  | succ k ih =>
      rw [Function.iterate_succ_apply', Function.iterate_succ_apply']
      have hdev := ih.1
      refine ⟨?_, ?_⟩
      · rw [dlSelectElement_devices, hdev]
      · rw [dlSelectElement_selected _ _ (by rw [hdev]; exact hne), hdev, ih.2]

/-- Iterating Help's scroll step moves the offset through the
corresponding cyclic successor. -/
theorem helpScroll_iter (dir : SelectElement) (m : HelpModel) (k : Nat) :
    ((fun x => helpScrollStep x dir)^[k] m).offset =
      (fun s => match dir with
        | SelectElement.previous => if s = 0 then HELP_CONTENT_LENGTH else s - 1
        | SelectElement.next => if s ≥ HELP_CONTENT_LENGTH then 0 else s + 1)^[k]
        m.offset := by
  induction k with
  | zero => rfl
  | succ k ih =>
      rw [Function.iterate_succ_apply', Function.iterate_succ_apply']
      have hstep : ∀ x : HelpModel, (helpScrollStep x dir).offset =
          match dir with
          | SelectElement.previous => if x.offset = 0 then HELP_CONTENT_LENGTH else x.offset - 1
          | SelectElement.next => if x.offset ≥ HELP_CONTENT_LENGTH then 0 else x.offset + 1 := by
        intro x
        cases dir <;> rfl
      rw [hstep, ih]
      cases dir <;> rfl

/-- The `if`-shaped cyclic successor agrees with `+ 1 (mod L)` below `L`. -/
theorem cyc_next_mod (L s : Nat) (hL : 0 < L) (hs : s < L) :
    (if s = L - 1 then 0 else s + 1) = (s + 1) % L := by
  by_cases h : s = L - 1
  · rw [if_pos h]
    have h1 : s + 1 = L := by omega
    rw [h1, Nat.mod_self]
  · rw [if_neg h, Nat.mod_eq_of_lt (by omega)]

/-- The `if`-shaped cyclic predecessor agrees with `+ (L-1) (mod L)` below
`L`. -/
theorem cyc_prev_mod (L s : Nat) (hL : 0 < L) (hs : s < L) :
    (if s = 0 then L - 1 else s - 1) = (s + (L - 1)) % L := by
  by_cases h : s = 0
  · rw [if_pos h, h]
    simp [Nat.mod_eq_of_lt (show L - 1 < L by omega)]
  · rw [if_neg h]
    have h2 : s + (L - 1) = (s - 1) + L := by omega
    rw [h2, Nat.add_mod_right, Nat.mod_eq_of_lt (by omega)]

/-- Help's `NextElement` offset step agrees with `+ 1 (mod 19)` below 19. -/
theorem help_next_mod (s : Nat) (hs : s < HELP_CONTENT_LENGTH + 1) :
    (if s ≥ HELP_CONTENT_LENGTH then 0 else s + 1) = (s + 1) % (HELP_CONTENT_LENGTH + 1) := by
  simp only [HELP_CONTENT_LENGTH] at hs ⊢
  by_cases h : 18 ≤ s
  · rw [if_pos h]
    omega
  · rw [if_neg h]
    omega

/-- Help's `PreviousElement` offset step agrees with `+ 18 (mod 19)` below
19. -/
theorem help_prev_mod (s : Nat) (hs : s < HELP_CONTENT_LENGTH + 1) :
    (if s = 0 then HELP_CONTENT_LENGTH else s - 1)
      = (s + HELP_CONTENT_LENGTH) % (HELP_CONTENT_LENGTH + 1) := by
  simp only [HELP_CONTENT_LENGTH] at hs ⊢
  by_cases h : s = 0
  · rw [if_pos h, h]
  · rw [if_neg h]
    omega

/-- A string that parses as a number is not empty. -/
theorem parseNatStr_isEmpty_false {s : String} {mx v : Nat}
    (h : parseNatStr s mx = some v) : s.isEmpty = false := by
  cases hb : s.isEmpty
  · rfl
  · exfalso
    have hs : s = "" := (String.isEmpty_iff s).mp hb
    subst hs
    rw [show parseNatStr "" mx = Option.none from rfl] at h
    exact Option.noConfusion h

/-- A spelling `get_port_parameters` accepts passes `validate_values`'
parity check. -/
theorem parityFromStr_valid {s : String} {p : Parity} (h : parityFromStr s = some p) :
    parityValid s = true := by
  unfold parityFromStr at h
  unfold parityValid
  split_ifs at h with h1 h2 h3 <;> simp_all

/-- A spelling `get_port_parameters` accepts passes `validate_values`'
mode check. -/
theorem modeFromStr_valid {s : String} {md : Mode} (h : modeFromStr s = some md) :
    modeValid s = true := by
  unfold modeFromStr at h
  unfold modeValid
  split_ifs at h with h1 h2 h3 h4 <;> simp_all

/-- `validate_values` on the six-field shape every reachable menu has:
the first four fields are marked invalid exactly when empty, parity and
mode exactly when their lowercase spellings are not admissible, and the
returned flag is the conjunction of those checks. -/
theorem menuValidateValues_six (m : MenuModel) (i0 i1 i2 i3 i4 i5 : MenuInput)
    (h : m.inputs = [i0, i1, i2, i3, i4, i5]) :
    menuValidateValues m = some
      ({ m with inputs :=
          [ { i0 with invalid := i0.value.isEmpty }
          , { i1 with invalid := i1.value.isEmpty }
          , { i2 with invalid := i2.value.isEmpty }
          , { i3 with invalid := i3.value.isEmpty }
          , { i4 with invalid := !parityValid (rustToLower i4.value) }
          , { i5 with invalid := !modeValid (rustToLower i5.value) } ] },
       ((!i0.value.isEmpty && (!i1.value.isEmpty && (!i2.value.isEmpty && (!i3.value.isEmpty && true))))
         && parityValid (rustToLower i4.value)) && modeValid (rustToLower i5.value)) := by
  obtain ⟨st, sp, bo, off, sel, mw, mh, sc, inputs⟩ := m
  dsimp only at h
  subst h
  rfl

/-! ## Claim theorems -/

/-- C1: the claim says `update(Rx(bytes))` on a Terminal model appends one
`DataByte {value := b, direction := Output}` per received byte.  Evaluating
the code at the failing input: for an Ascii-mode Terminal model with an
empty display buffer, `update (Rx [0x41, 0x42])` returns the model
*unchanged* — `Message::Rx` falls into the `_ => {}` arm of
`TerminalModel::update` and `update_buffer_output` is an empty stub — so
the display buffer gains nothing. -/
theorem c1_terminal_rx_is_noop :
    TerminalModel.new asciiParams = some asciiTerminal ∧
    asciiTerminal.buffer = [] ∧
    asciiTerminal.update (.rx [0x41, 0x42]) = some (asciiTerminal, .running) :=
  ⟨rfl, rfl, rfl⟩

/-- C2: the claim says a timeout-class write error leaves `tx` untouched so
the bytes are retried.  Evaluating the code at the failing input: with
`tx = [0x61]`, a cycle whose write times out ends with `tx = []` — the
unconditional `(**tx_mutex).clear()` after the `match` in `read_write_port`
drops the bytes.  (The success half of the claim does hold: the second
conjunct is the same cycle with a successful write.) -/
theorem c2_tx_cleared_even_on_timeout :
    bridgeCycle ⟨[], [0x61], Option.none⟩ ⟨.timedOut, .timedOut, 0, true⟩
      = ⟨[], [], Option.none⟩ ∧
    bridgeCycle ⟨[], [0x61], Option.none⟩ ⟨.ok, .timedOut, 0, true⟩
      = ⟨[], [], Option.none⟩ :=
  ⟨rfl, rfl⟩

/-- C5: the claim says every screen's `update` returns normally on every
message, in particular Menu's `Input`/`Backspace` with a button selected.
Evaluating the code at the failing input: from the default Menu model, six
`NextElement` messages select the Cancel button (index 6), and the next
`Input('x')` (or `Backspace`) indexes `model.inputs[6]` in
`update_element`, out of bounds for the six-element `inputs` — a panic,
modelled as `none`. -/
theorem c5_menu_input_on_button_panics :
    runUpdates MenuModel.update MenuModel.default
      (List.replicate 6 Message.nextElement ++ [Message.input 'x']) = Option.none ∧
    runUpdates MenuModel.update MenuModel.default
      (List.replicate 6 Message.nextElement ++ [Message.backspace]) = Option.none :=
  ⟨rfl, rfl⟩

/-- C9: when opening the device fails, the bridge thread writes
`" Failed to open port "` into the shared error slot and returns without
entering the read/write loop: whatever cycle outcomes would have followed,
the resulting shared state is the input state with only the error slot
changed (`rx`, `tx` untouched). -/
theorem c9_open_failure_terminal (st : BridgeState) (flag0 : Bool) (ios : List CycleIO) :
    readWritePort st flag0 .openFailed ios
      = { st with error := some " Failed to open port " } :=
  rfl

/-- C10: on a DeviceList model with an empty device list, `update(Enter)`
returns `Switching(Menu, None)` (a switch to a default, un-prefilled Menu,
not an error and not a no-op); with a non-empty list (and the selected
index in range, as navigation keeps it), it returns
`Switching(Menu, Some(params))` where `params` carries exactly the selected
device's name and every other field `None`. -/
theorem c10_device_list_enter (m : DeviceListModel) :
    (m.devices = [] →
      m.update .enter =
        some ({ m with state := .switching .menu Option.none },
              .switching .menu Option.none)) ∧
    (∀ nm, m.devices.get? m.selected = some nm →
      m.update .enter =
        some ({ m with state :=
                  .switching .menu (some { PortParameters.default with name := some nm }) },
              .switching .menu (some { PortParameters.default with name := some nm }))) := by
  constructor
  · intro h
    simp [DeviceListModel.update, dlSwitchScreen, h]
  · intro nm h
    have hlen : m.devices.length > 0 := by
      cases hd : m.devices with
      | nil => rw [hd] at h; simp at h
      | cons a l => simp [hd]
    rw [List.get?_eq_getElem?] at h
    simp [DeviceListModel.update, dlSwitchScreen, hlen, h]

/-- Witness for C10: both branches at concrete device lists — the default
(empty) model switches to an un-prefilled Menu, and a two-device list with
index 1 selected switches to a Menu pre-filled with `"COM2"`. -/
theorem c10_device_list_enter_witness :
    DeviceListModel.default.update .enter =
      some ({ DeviceListModel.default with state := .switching .menu Option.none },
            .switching .menu Option.none) ∧
    ({ DeviceListModel.default with devices := ["COM1", "COM2"], selected := 1 }
        : DeviceListModel).update .enter =
      some ({ DeviceListModel.default with
                devices := ["COM1", "COM2"]
                selected := 1
                state := .switching .menu (some { PortParameters.default with name := some "COM2" }) },
            .switching .menu (some { PortParameters.default with name := some "COM2" })) :=
  ⟨(c10_device_list_enter DeviceListModel.default).1 rfl,
   (c10_device_list_enter _).2 "COM2" rfl⟩

/-- C7: cyclic element navigation.  For each screen model with `N`
selectable positions, applying `NextElement` `N` times returns the
selection to its starting index, and likewise for `PreviousElement`:
`N = inputs.len() + 2` for Menu (six fields plus Cancel and Start),
`N = devices.len()` for a non-empty DeviceList (with the selected index in
range, as navigation keeps it), and `N = CONTENT_LENGTH + 1 = 19` scroll
positions for Help's offset. -/
theorem c7_cyclic_navigation :
    (∀ m : MenuModel, m.selected ≤ m.inputs.length + 1 →
      ∃ m', runUpdates MenuModel.update m
          (List.replicate (m.inputs.length + 2) Message.nextElement) = some m' ∧
        m'.selected = m.selected) ∧
    (∀ m : MenuModel, m.selected ≤ m.inputs.length + 1 →
      ∃ m', runUpdates MenuModel.update m
          (List.replicate (m.inputs.length + 2) Message.previousElement) = some m' ∧
        m'.selected = m.selected) ∧
    (∀ m : DeviceListModel, m.devices ≠ [] → m.selected < m.devices.length →
      ∃ m', runUpdates DeviceListModel.update m
          (List.replicate m.devices.length Message.nextElement) = some m' ∧
        m'.selected = m.selected) ∧
    (∀ m : DeviceListModel, m.devices ≠ [] → m.selected < m.devices.length →
      ∃ m', runUpdates DeviceListModel.update m
          (List.replicate m.devices.length Message.previousElement) = some m' ∧
        m'.selected = m.selected) ∧
    (∀ m : HelpModel, m.offset ≤ HELP_CONTENT_LENGTH →
      ∃ m', runUpdates HelpModel.update m
          (List.replicate (HELP_CONTENT_LENGTH + 1) Message.nextElement) = some m' ∧
        m'.offset = m.offset) ∧
    (∀ m : HelpModel, m.offset ≤ HELP_CONTENT_LENGTH →
      ∃ m', runUpdates HelpModel.update m
          (List.replicate (HELP_CONTENT_LENGTH + 1) Message.previousElement) = some m' ∧
        m'.offset = m.offset) := by
  refine ⟨?_, ?_, ?_, ?_, ?_, ?_⟩
  · intro m hm
    refine ⟨_, runUpdates_replicate MenuModel.update Message.nextElement
        (fun x => menuSelectElement x SelectElement.next) (fun x => rfl)
        (m.inputs.length + 2) m, ?_⟩
    rw [(menuSelect_iter SelectElement.next m (m.inputs.length + 2)).2]
    exact iterate_cyc_id (n := m.inputs.length + 2) (d := 1) _
      (fun s hs => cyc_next_mod (m.inputs.length + 2) s (by omega) hs)
      m.selected (by omega)
  · intro m hm
    refine ⟨_, runUpdates_replicate MenuModel.update Message.previousElement
        (fun x => menuSelectElement x SelectElement.previous) (fun x => rfl)
        (m.inputs.length + 2) m, ?_⟩
    rw [(menuSelect_iter SelectElement.previous m (m.inputs.length + 2)).2]
    exact iterate_cyc_id (n := m.inputs.length + 2) (d := m.inputs.length + 1) _
      (fun s hs => cyc_prev_mod (m.inputs.length + 2) s (by omega) hs)
      m.selected (by omega)
  · intro m hne hm
    have hlen : m.devices.length ≠ 0 := fun h => hne (List.length_eq_zero.mp h)
    refine ⟨_, runUpdates_replicate DeviceListModel.update Message.nextElement
        (fun x => dlSelectElement x SelectElement.next) (fun x => rfl)
        m.devices.length m, ?_⟩
    rw [(dlSelect_iter SelectElement.next m m.devices.length hlen).2]
    exact iterate_cyc_id (n := m.devices.length) (d := 1) _
      (fun s hs => cyc_next_mod m.devices.length s (by omega) hs)
      m.selected hm
  · intro m hne hm
    have hlen : m.devices.length ≠ 0 := fun h => hne (List.length_eq_zero.mp h)
    refine ⟨_, runUpdates_replicate DeviceListModel.update Message.previousElement
        (fun x => dlSelectElement x SelectElement.previous) (fun x => rfl)
        m.devices.length m, ?_⟩
    rw [(dlSelect_iter SelectElement.previous m m.devices.length hlen).2]
    exact iterate_cyc_id (n := m.devices.length) (d := m.devices.length - 1) _
      (fun s hs => cyc_prev_mod m.devices.length s (by omega) hs)
      m.selected hm
  · intro m hm
    refine ⟨_, runUpdates_replicate HelpModel.update Message.nextElement
        (fun x => helpScrollStep x SelectElement.next) (fun x => rfl)
        (HELP_CONTENT_LENGTH + 1) m, ?_⟩
    rw [helpScroll_iter SelectElement.next m (HELP_CONTENT_LENGTH + 1)]
    exact iterate_cyc_id (n := HELP_CONTENT_LENGTH + 1) (d := 1) _
      (fun s hs => help_next_mod s hs)
      m.offset (by omega)
  · intro m hm
    refine ⟨_, runUpdates_replicate HelpModel.update Message.previousElement
        (fun x => helpScrollStep x SelectElement.previous) (fun x => rfl)
        (HELP_CONTENT_LENGTH + 1) m, ?_⟩
    rw [helpScroll_iter SelectElement.previous m (HELP_CONTENT_LENGTH + 1)]
    exact iterate_cyc_id (n := HELP_CONTENT_LENGTH + 1) (d := HELP_CONTENT_LENGTH) _
      (fun s hs => help_prev_mod s hs)
      m.offset (by omega)

/-- Witness for C7: all six cyclic round trips at concrete models — the
default Menu (8 positions), a two-device DeviceList with index 1 selected,
and a Help model scrolled to offset 3. -/
theorem c7_cyclic_navigation_witness :
    (∃ m', runUpdates MenuModel.update MenuModel.default
        (List.replicate 8 Message.nextElement) = some m' ∧ m'.selected = 0) ∧
    (∃ m', runUpdates MenuModel.update MenuModel.default
        (List.replicate 8 Message.previousElement) = some m' ∧ m'.selected = 0) ∧
    (∃ m', runUpdates DeviceListModel.update
        { DeviceListModel.default with devices := ["COM1", "COM2"], selected := 1 }
        (List.replicate 2 Message.nextElement) = some m' ∧ m'.selected = 1) ∧
    (∃ m', runUpdates DeviceListModel.update
        { DeviceListModel.default with devices := ["COM1", "COM2"], selected := 1 }
        (List.replicate 2 Message.previousElement) = some m' ∧ m'.selected = 1) ∧
    (∃ m', runUpdates HelpModel.update { HelpModel.default with offset := 3 }
        (List.replicate 19 Message.nextElement) = some m' ∧ m'.offset = 3) ∧
    (∃ m', runUpdates HelpModel.update { HelpModel.default with offset := 3 }
        (List.replicate 19 Message.previousElement) = some m' ∧ m'.offset = 3) :=
  ⟨c7_cyclic_navigation.1 MenuModel.default (by decide),
   c7_cyclic_navigation.2.1 MenuModel.default (by decide),
   c7_cyclic_navigation.2.2.1 _ (by decide) (by decide),
   c7_cyclic_navigation.2.2.2.1 _ (by decide) (by decide),
   c7_cyclic_navigation.2.2.2.2.1 _ (by decide),
   c7_cyclic_navigation.2.2.2.2.2 _ (by decide)⟩

/-- C8: submitting a non-empty input line on the Terminal screen
(`update(Enter)` with `input.len() > 0`, under the geometry in which the
screen operates: a visible height of at least 5 rows and a width of at
least one byte column) first computes the projected rendered line count of
the display buffer plus the new bytes (`relLength`); if that count exceeds
the visible height (`height - 5`), the *entire* display buffer is cleared
— otherwise it is kept whole, with no partial truncation — and in either
case the submitted bytes are appended, tagged `Input`. -/
theorem c8_terminal_enter_overflow (m : TerminalModel) (mode : Mode)
    (hmode : m.parameters.mode = some mode)
    (hinput : 0 < terminalInputLen m)
    (hh : 5 ≤ m.bounds.height)
    (hw : textWidth mode ≤ m.bounds.width) :
    TerminalModel.update m .enter =
      some ({ m with
                buffer := (if relLength m mode > m.bounds.height - 5 then [] else m.buffer)
                  ++ (m.input.flatMap utf8Enc).map (fun v => ⟨v, DataDirection.input⟩)
                input := [] },
            m.state) := by
  have htw : 0 < textWidth mode := by cases mode <;> simp [textWidth]
  have hrw : ¬ m.bounds.width / textWidth mode = 0 := by
    have h1 : 1 ≤ m.bounds.width / textWidth mode := (Nat.one_le_div_iff htw).mpr hw
    omega
  have hub : updateBufferInput m = some { m with
      buffer := (if relLength m mode > m.bounds.height - 5 then [] else m.buffer)
        ++ (m.input.flatMap utf8Enc).map (fun v => ⟨v, DataDirection.input⟩) } := by
    simp only [updateBufferInput, hmode]
    rw [if_neg (by omega : ¬ m.bounds.height < 5), if_neg hrw]
  unfold TerminalModel.update
  rw [if_pos hinput, hub]

/-- C6, counterexample: the claim says any out-of-range field makes
`update(Enter)` on Start return an Error state.  But `validate_values`
only checks emptiness of the first four fields and the parity/mode
spellings — never the 5–8 / 1–2 ranges — so the menu with data-bits value
`"3"` (everything else valid) submits
`Switching(Terminal, Some(params))` with `data_bits = Some(3)`, not an
Error. -/
theorem c6_out_of_range_counterexample :
    outOfRangeMenu.selected = outOfRangeMenu.inputs.length + 1 ∧
    outOfRangeParams.data_bits = some 3 ∧
    (MenuModel.update outOfRangeMenu .enter).map Prod.snd =
      some (.switching .terminal (some outOfRangeParams)) ∧
    (∀ e, (MenuModel.update outOfRangeMenu .enter).map Prod.snd ≠ some (.error e)) := by
  refine ⟨rfl, rfl, rfl, ?_⟩
  intro e h
  rw [show (MenuModel.update outOfRangeMenu .enter).map Prod.snd =
      some (State.switching .terminal (some outOfRangeParams)) from rfl] at h
  simp at h

/-- C6 (amended): for a six-field Menu with the Start button selected:
if all values parse — name non-empty, baud-rate a numeric `u32` string,
data/stop bits numeric (in particular when in the 5–8 / 1–2 ranges), and
parity/mode admissible case-insensitive spellings — `update(Enter)`
returns `Switching(Terminal, Some(params))` with exactly the parsed
values; if any of the first four values is empty, or the parity or mode
spelling is not admissible, it returns the Error state
`" Invalid input (ctrl+h) for help "` and the Menu model remains the
active model (the main loop's `update` stores the Error state without
switching).  The data/stop-bit *ranges* are not checked at submission —
they are enforced only at character entry — which is the one amendment to
the claim (see the counterexample). -/
theorem c6_menu_start_submission (m : MenuModel)
    (i0 i1 i2 i3 i4 i5 : MenuInput)
    (hinp : m.inputs = [i0, i1, i2, i3, i4, i5])
    (hsel : m.selected = 7) :
    (∀ b d s pr md,
      i0.value.isEmpty = false →
      parseU32 i1.value = some b →
      parseU8 i2.value = some d → 5 ≤ d → d ≤ 8 →
      parseU8 i3.value = some s → 1 ≤ s → s ≤ 2 →
      parityFromStr (rustToLower i4.value) = some pr →
      modeFromStr (rustToLower i5.value) = some md →
      (MenuModel.update m .enter).map Prod.snd =
        some (.switching .terminal
          (some ⟨some i0.value, some b, some d, some s, some pr, some md⟩))) ∧
    ((i0.value.isEmpty = true ∨ i1.value.isEmpty = true ∨ i2.value.isEmpty = true ∨
        i3.value.isEmpty = true ∨ parityValid (rustToLower i4.value) = false ∨
        modeValid (rustToLower i5.value) = false) →
      ∃ m', MenuModel.update m .enter
          = some (m', .error " Invalid input (ctrl+h) for help ") ∧
        ∀ a : AppState, a.scene.screen = .menu → a.scene.menu = some m →
          mainUpdate a .enter = some { a with
            scene := { a.scene with menu := some m' }
            state := .error " Invalid input (ctrl+h) for help " }) := by
  have hvv := menuValidateValues_six m i0 i1 i2 i3 i4 i5 hinp
  constructor
  · intro b d s pr md h0 hb hd hd5 hd8 hs hs1 hs2 hpr hmd
    have h1 : i1.value.isEmpty = false := parseNatStr_isEmpty_false hb
    have h2 : i2.value.isEmpty = false := parseNatStr_isEmpty_false hd
    have h3 : i3.value.isEmpty = false := parseNatStr_isEmpty_false hs
    have hpv := parityFromStr_valid hpr
    have hmv := modeFromStr_valid hmd
    simp only [MenuModel.update, menuUpdateState, hinp, hsel, hvv, List.length_cons,
      List.length_nil, h0, h1, h2, h3, hpv, hmv, Bool.not_false, Bool.and_true,
      Bool.true_and, getPortParameters, hb, hd, hs, hpr, hmd]
    simp [hb, hd, hs, hpr, hmd]
  · intro hbad
    have hfalse : (((!i0.value.isEmpty && (!i1.value.isEmpty && (!i2.value.isEmpty &&
        (!i3.value.isEmpty && true)))) && parityValid (rustToLower i4.value))
        && modeValid (rustToLower i5.value)) = false := by
      rcases hbad with h | h | h | h | h | h <;> simp [h]
    have hupd : MenuModel.update m .enter = some
        ({ m with
            inputs :=
              [ { i0 with invalid := i0.value.isEmpty }
              , { i1 with invalid := i1.value.isEmpty }
              , { i2 with invalid := i2.value.isEmpty }
              , { i3 with invalid := i3.value.isEmpty }
              , { i4 with invalid := !parityValid (rustToLower i4.value) }
              , { i5 with invalid := !modeValid (rustToLower i5.value) } ]
            state := .error " Invalid input (ctrl+h) for help " },
         .error " Invalid input (ctrl+h) for help ") := by
      simp only [MenuModel.update, menuUpdateState, hinp, hsel, List.length_cons,
        List.length_nil, hvv, hfalse]
      simp
    refine ⟨_, hupd, ?_⟩
    intro a hscr hmenu
    simp only [mainUpdate, sceneModelUpdate, hscr, hmenu, hupd, Option.map]

/-- Witness for C6's amended theorem: Scenario A (all fields valid) goes
to `Switching(Terminal, Some(COM4/9600/8/1/Even/Ascii))`; Scenario B
(data bits empty) yields the Error state. -/
theorem c6_menu_start_submission_witness :
    (MenuModel.update scenarioAMenu .enter).map Prod.snd =
      some (.switching .terminal (some asciiParams)) ∧
    ∃ m', MenuModel.update scenarioBMenu .enter
        = some (m', .error " Invalid input (ctrl+h) for help ") ∧
      ∀ a : AppState, a.scene.screen = .menu → a.scene.menu = some scenarioBMenu →
        mainUpdate a .enter = some { a with
          scene := { a.scene with menu := some m' }
          state := .error " Invalid input (ctrl+h) for help " } :=
  ⟨(c6_menu_start_submission scenarioAMenu _ _ _ _ _ _ rfl rfl).1
      9600 8 1 Parity.even Mode.ascii rfl rfl rfl (by decide) (by decide) rfl
      (by decide) (by decide) rfl rfl,
   (c6_menu_start_submission scenarioBMenu _ _ _ _ _ _ rfl rfl).2
      (Or.inr (Or.inr (Or.inl rfl)))⟩

/-- Witness for C8: a concrete Ascii-mode Terminal model (20×10 bounds,
empty display buffer, pending input `"hi"`) — Enter appends the two
UTF-8 bytes tagged `Input` without clearing. -/
theorem c8_terminal_enter_overflow_witness :
    TerminalModel.update
      { asciiTerminal with bounds := ⟨0, 0, 20, 10⟩, input := ['h', 'i'] } .enter =
    some ({ asciiTerminal with
              bounds := ⟨0, 0, 20, 10⟩
              buffer := [⟨104, DataDirection.input⟩, ⟨105, DataDirection.input⟩]
              input := [] },
          State.running) :=
  c8_terminal_enter_overflow _ Mode.ascii rfl (by decide) (by decide) (by decide)

theorem menuUpdateScroll_state (m : MenuModel) : (menuUpdateScroll m).state = m.state := by
  unfold menuUpdateScroll
  rcases h : m.split <;> simp [h]

theorem menuSelectElement_state (m : MenuModel) (dir : SelectElement) :
    (menuSelectElement m dir).state = m.state := by
  unfold menuSelectElement
  dsimp only
  split <;> split
  all_goals first
    | rw [menuUpdateScroll_state]
    | rfl

theorem menuUpdateElement_state {m : MenuModel} {u : UpdateElement} {m' : MenuModel}
    (h : menuUpdateElement m u = some m') : m'.state = m.state := by
  unfold menuUpdateElement at h
  cases u <;> dsimp only at h <;> (repeat' split at h) <;>
    first
      | exact Option.noConfusion h
      | (simp only [Option.some.injEq] at h; subst h; rfl)

theorem menuUpdateState_shape {m : MenuModel} {m' : MenuModel}
    (h : menuUpdateState m = some m') :
    m'.state = m.state ∨ m'.state = .stopping ∨ (∃ e, m'.state = .error e) ∨
      ∃ ps, m'.state = .switching Screen.terminal (some ps) := by
  unfold menuUpdateState at h
  by_cases h1 : m.selected = m.inputs.length
  · rw [if_pos h1] at h
    simp only [Option.some.injEq] at h
    subst h
    simp
  · rw [if_neg h1] at h
    by_cases h2 : m.selected = m.inputs.length + 1
    · rw [if_pos h2] at h
      cases hv : menuValidateValues m with
      | none => rw [hv] at h; exact Option.noConfusion h
      | some r =>
          rw [hv] at h
          obtain ⟨m1, valid⟩ := r
          dsimp only at h
          by_cases h3 : valid = true
          · rw [if_pos h3] at h
            cases hp : getPortParameters m1 with
            | none => rw [hp] at h; exact Option.noConfusion h
            | some ps =>
                rw [hp] at h
                simp only [Option.some.injEq] at h
                subst h
                simp
          · rw [if_neg h3] at h
            simp only [Option.some.injEq] at h
            subst h
            simp
    · rw [if_neg h2] at h
      simp only [Option.some.injEq] at h
      subst h
      simp

theorem menuUpdate_shape {m : MenuModel} {msg : Message} {m' : MenuModel} {st : State}
    (h : m.update msg = some (m', st)) :
    st = m'.state ∧
    (m.state.isSwitchingState = false →
      ∀ sc p, st = State.switching sc p → sc = Screen.terminal ∧ p.isSome = true) := by
  cases msg <;>
    simp only [MenuModel.update, Option.map_eq_some', Option.some.injEq, Prod.mk.injEq] at h
  case quit =>
    obtain ⟨hm, hst⟩ := h
    subst hm
    constructor
    · rw [← hst]
    · intro hns sc p hsw
      rw [← hst] at hsw
      exact absurd hsw (by simp)
  case enter =>
    obtain ⟨m1, hm1, hm, hst⟩ := h
    subst hm
    refine ⟨hst.symm, ?_⟩
    intro hns sc p hsw
    rcases menuUpdateState_shape hm1 with he | he | ⟨e, he⟩ | ⟨ps, he⟩ <;>
      rw [← hst, he] at hsw
    · rw [hsw] at hns
      simp [State.isSwitchingState] at hns
    · exact absurd hsw (by simp)
    · exact absurd hsw (by simp)
    · simp only [State.switching.injEq] at hsw
      obtain ⟨h1, h2⟩ := hsw
      subst h1; subst h2
      exact ⟨rfl, rfl⟩
  case previousElement =>
    obtain ⟨hm, hst⟩ := h
    subst hm
    refine ⟨hst.symm, ?_⟩
    intro hns sc p hsw
    rw [← hst, menuSelectElement_state] at hsw
    rw [hsw] at hns
    simp [State.isSwitchingState] at hns
  case nextElement =>
    obtain ⟨hm, hst⟩ := h
    subst hm
    refine ⟨hst.symm, ?_⟩
    intro hns sc p hsw
    rw [← hst, menuSelectElement_state] at hsw
    rw [hsw] at hns
    simp [State.isSwitchingState] at hns
  case input c =>
    obtain ⟨m1, hm1, hm, hst⟩ := h
    subst hm
    refine ⟨hst.symm, ?_⟩
    intro hns sc p hsw
    rw [← hst, menuUpdateElement_state hm1] at hsw
    rw [hsw] at hns
    simp [State.isSwitchingState] at hns
  case backspace =>
    obtain ⟨m1, hm1, hm, hst⟩ := h
    subst hm
    refine ⟨hst.symm, ?_⟩
    intro hns sc p hsw
    rw [← hst, menuUpdateElement_state hm1] at hsw
    rw [hsw] at hns
    simp [State.isSwitchingState] at hns
  all_goals
    obtain ⟨hm, hst⟩ := h
    subst hm
    refine ⟨hst.symm, ?_⟩
    intro hns sc p hsw
    rw [← hst] at hsw
    rw [hsw] at hns
    simp [State.isSwitchingState] at hns


theorem helpUpdate_shape {m : HelpModel} {msg : Message} {m' : HelpModel} {st : State}
    (h : m.update msg = some (m', st)) :
    st = m'.state ∧ m'.caller = m.caller ∧ m'.parameters = m.parameters ∧
    (m.state.isSwitchingState = false →
      ∀ sc p, st = State.switching sc p → sc = m.caller ∧ p = m.parameters) := by
  cases msg <;>
    (simp only [HelpModel.update, Option.some.injEq, Prod.mk.injEq] at h;
     obtain ⟨hm, hst⟩ := h; subst hm)
  case enter =>
    refine ⟨hst.symm, rfl, rfl, ?_⟩
    intro hns sc p hsw
    rw [← hst] at hsw
    simp only [State.switching.injEq] at hsw
    exact ⟨hsw.1.symm, hsw.2.symm⟩
  all_goals
    refine ⟨hst.symm, rfl, rfl, ?_⟩
    intro hns sc p hsw
    rw [← hst] at hsw
    try dsimp only at hsw
    rw [hsw] at hns
    simp [State.isSwitchingState] at hns

theorem dlSelectElement_state (m : DeviceListModel) (dir : SelectElement) :
    (dlSelectElement m dir).state = m.state := by
  unfold dlSelectElement
  dsimp only
  split
  · rfl
  · split <;> rfl

theorem dlSwitchScreen_shape {m m' : DeviceListModel} (h : dlSwitchScreen m = some m') :
    ∃ p, m'.state = .switching Screen.menu p := by
  unfold dlSwitchScreen at h
  by_cases h1 : m.devices.length > 0
  · rw [if_pos h1] at h
    cases hg : m.devices.get? m.selected with
    | none => rw [hg] at h; exact Option.noConfusion h
    | some nm =>
        rw [hg] at h
        simp only [Option.some.injEq] at h
        subst h
        exact ⟨_, rfl⟩
  · rw [if_neg h1] at h
    simp only [Option.some.injEq] at h
    subst h
    exact ⟨_, rfl⟩

theorem deviceListUpdate_shape {m : DeviceListModel} {msg : Message}
    {m' : DeviceListModel} {st : State}
    (h : m.update msg = some (m', st)) :
    st = m'.state ∧
    (m.state.isSwitchingState = false →
      ∀ sc p, st = State.switching sc p → sc = Screen.menu) := by
  cases msg <;> dsimp only [DeviceListModel.update] at h
  case enter =>
    simp only [Option.map_eq_some'] at h
    obtain ⟨m1, hm1, hpair⟩ := h
    simp only [Prod.mk.injEq] at hpair
    obtain ⟨hm, hst⟩ := hpair
    subst hm
    refine ⟨hst.symm, ?_⟩
    intro hns sc p hsw
    obtain ⟨q, hq⟩ := dlSwitchScreen_shape hm1
    rw [← hst, hq] at hsw
    simp only [State.switching.injEq] at hsw
    exact hsw.1.symm
  case previousElement =>
    simp only [Option.some.injEq, Prod.mk.injEq] at h
    obtain ⟨hm, hst⟩ := h
    subst hm
    refine ⟨hst.symm, ?_⟩
    intro hns sc p hsw
    rw [← hst, dlSelectElement_state] at hsw
    rw [hsw] at hns
    simp [State.isSwitchingState] at hns
  case nextElement =>
    simp only [Option.some.injEq, Prod.mk.injEq] at h
    obtain ⟨hm, hst⟩ := h
    subst hm
    refine ⟨hst.symm, ?_⟩
    intro hns sc p hsw
    rw [← hst, dlSelectElement_state] at hsw
    rw [hsw] at hns
    simp [State.isSwitchingState] at hns
  all_goals
    simp only [Option.some.injEq, Prod.mk.injEq] at h
    obtain ⟨hm, hst⟩ := h
    subst hm
    refine ⟨hst.symm, ?_⟩
    intro hns sc p hsw
    rw [← hst] at hsw
    rw [hsw] at hns
    simp [State.isSwitchingState] at hns

theorem updateBufferInput_state {m m' : TerminalModel} (h : updateBufferInput m = some m') :
    m'.state = m.state := by
  unfold updateBufferInput at h
  cases hm : m.parameters.mode with
  | none => rw [hm] at h; exact Option.noConfusion h
  | some md =>
      rw [hm] at h
      dsimp only at h
      repeat' split at h
      all_goals first
        | exact Option.noConfusion h
        | (simp only [Option.some.injEq] at h; subst h; rfl)

theorem terminalUpdate_shape {m : TerminalModel} {msg : Message}
    {m' : TerminalModel} {st : State}
    (h : m.update msg = some (m', st)) :
    st = m'.state ∧
    (m.state.isSwitchingState = false → st.isSwitchingState = false) := by
  cases msg <;> dsimp only [TerminalModel.update] at h
  case enter =>
    split at h
    · cases hub : updateBufferInput m with
      | none => rw [hub] at h; exact Option.noConfusion h
      | some m1 =>
          rw [hub] at h
          simp only [Option.some.injEq, Prod.mk.injEq] at h
          obtain ⟨hm, hst⟩ := h
          subst hm
          refine ⟨hst.symm, ?_⟩
          intro hns
          rw [← hst]
          show m1.state.isSwitchingState = false
          rw [updateBufferInput_state hub]
          exact hns
    · simp only [Option.some.injEq, Prod.mk.injEq] at h
      obtain ⟨hm, hst⟩ := h
      subst hm
      exact ⟨hst.symm, fun hns => by rw [← hst]; exact hns⟩
  all_goals
    first
      | (split at h <;>
          (simp only [Option.some.injEq, Prod.mk.injEq] at h;
           obtain ⟨hm, hst⟩ := h; subst hm;
           exact ⟨hst.symm, fun hns => by rw [← hst]; first | rfl | exact hns⟩))
      | (simp only [Option.some.injEq, Prod.mk.injEq] at h;
         obtain ⟨hm, hst⟩ := h; subst hm;
         exact ⟨hst.symm, fun hns => by rw [← hst]; first | rfl | exact hns⟩)


theorem menuNew_running (p : PortParameters) : (MenuModel.new p).state = State.running := rfl

theorem terminalNew_running {p : PortParameters} {t : TerminalModel}
    (h : TerminalModel.new p = some t) : t.state = State.running := by
  unfold TerminalModel.new at h
  cases hg : getPort p with
  | none => rw [hg] at h; exact Option.noConfusion h
  | some q =>
      rw [hg] at h
      simp only [Option.some.injEq] at h
      subst h
      rfl

theorem switchScreen_inv {scene : Scene} {new : Screen} {pp : Option PortParameters}
    {flag : Bool} {sp : PortParameters} {scene' : Scene} {f' : Bool} {sp' : PortParameters}
    (h : switchScreen scene new pp flag sp = some (scene', f', sp'))
    (hcur : scene.screen = new → SceneInv scene)
    (hhelp : new = Screen.help → scene.screen = Screen.terminal → pp.isSome = true) :
    SceneInv scene' := by
  unfold switchScreen at h
  by_cases he : scene.screen = new
  · rw [if_pos he] at h
    simp only [Option.some.injEq, Prod.mk.injEq] at h
    obtain ⟨h1, _⟩ := h
    subst h1
    exact hcur he
  · rw [if_neg he] at h
    cases new with
    | menu =>
        simp only [Option.some.injEq, Prod.mk.injEq] at h
        obtain ⟨h1, _⟩ := h
        subst h1
        refine ⟨by simp [sceneSlotsOk], by simp [helpOk], ?_⟩
        cases pp <;>
          simp [restingOk, menuNew_running, MenuModel.default, State.isSwitchingState]
    | deviceList =>
        simp only [Option.some.injEq, Prod.mk.injEq] at h
        obtain ⟨h1, _⟩ := h
        subst h1
        refine ⟨by simp [sceneSlotsOk], by simp [helpOk], ?_⟩
        simp [restingOk, DeviceListModel.default, State.isSwitchingState]
    | help =>
        simp only [Option.some.injEq, Prod.mk.injEq] at h
        obtain ⟨h1, _⟩ := h
        subst h1
        refine ⟨by simp [sceneSlotsOk], ?_, ?_⟩
        · simp only [helpOk, HelpModel.new, HelpModel.default]
          rw [if_neg (fun hx => he hx)]
          by_cases ht : scene.screen = Screen.terminal
          · rw [if_pos ht]
            simpa using hhelp rfl ht
          · rw [if_neg ht]
            simp
        · simp [restingOk, HelpModel.new, HelpModel.default, State.isSwitchingState]
    | terminal =>
        dsimp only at h
        cases pp with
        | none => exact Option.noConfusion h
        | some params =>
            dsimp only at h
            cases ht : TerminalModel.new params with
            | none => rw [ht] at h; exact Option.noConfusion h
            | some t =>
                rw [ht] at h
                simp only [Option.some.injEq, Prod.mk.injEq] at h
                obtain ⟨h1, _⟩ := h
                subst h1
                refine ⟨by simp [sceneSlotsOk], by simp [helpOk], ?_⟩
                simp [restingOk, terminalNew_running ht, State.isSwitchingState]


theorem getParameters_isSome {scene : Scene} {q : Option PortParameters}
    (hscr : scene.screen = Screen.terminal) (h : getParameters scene = some q) :
    q.isSome = true := by
  unfold getParameters at h
  rw [hscr] at h
  cases ht : scene.terminal with
  | none => rw [ht] at h; exact Option.noConfusion h
  | some t =>
      rw [ht] at h
      simp only [Option.some.injEq] at h
      subst h
      rfl

theorem plainKeyMessage_not_switching {k : KeyPress} {sc : Screen} {p : Option PortParameters} :
    plainKeyMessage k ≠ some (some (.switching sc p)) := by
  unfold plainKeyMessage
  cases k.code <;> dsimp only <;>
    first
      | (split_ifs <;> simp)
      | simp

theorem getMessage_switching {scene : Scene} {k : KeyPress} {sc : Screen}
    {p : Option PortParameters}
    (h : getMessage scene k = some (some (.switching sc p))) :
    sc ≠ Screen.terminal ∧
    (sc = Screen.help → scene.screen = Screen.terminal → p.isSome = true) := by
  unfold getMessage at h
  by_cases hc : k.ctrl = true
  · rw [if_pos hc] at h
    by_cases h1 : k.code = KeyCode.char QUIT_CHAR
    · rw [if_pos h1] at h
      simp at h
    · rw [if_neg h1] at h
      by_cases h2 : k.code = KeyCode.char DEVICE_LIST_CHAR
      · rw [if_pos h2] at h
        simp only [Option.some.injEq, State.switching.injEq] at h
        simp only [Message.switching.injEq] at h
        obtain ⟨hsc, hp⟩ := h
        subst hsc
        exact ⟨by simp, by simp⟩
      · rw [if_neg h2] at h
        by_cases h3 : k.code = KeyCode.char MENU_CHAR
        · rw [if_pos h3] at h
          cases hq : getParameters scene with
          | none => rw [hq] at h; exact Option.noConfusion h
          | some q =>
              rw [hq] at h
              simp only [Option.some.injEq, Message.switching.injEq] at h
              obtain ⟨hsc, hp⟩ := h
              subst hsc
              exact ⟨by simp, by simp⟩
        · rw [if_neg h3] at h
          by_cases h4 : k.code = KeyCode.char HELP_CHAR
          · rw [if_pos h4] at h
            cases hq : getParameters scene with
            | none => rw [hq] at h; exact Option.noConfusion h
            | some q =>
                rw [hq] at h
                simp only [Option.some.injEq, Message.switching.injEq] at h
                obtain ⟨hsc, hp⟩ := h
                subst hsc
                subst hp
                refine ⟨by simp, ?_⟩
                intro _ hterm
                exact getParameters_isSome hterm hq
          · rw [if_neg h4] at h
            exact absurd h plainKeyMessage_not_switching
  · rw [if_neg hc] at h
    exact absurd h plainKeyMessage_not_switching


theorem sceneModelUpdate_shape {scene : Scene} {msg : Message} {scene1 : Scene} {st : State}
    (h : sceneModelUpdate scene msg = some (scene1, st))
    (hinv : SceneInv scene) :
    scene1.screen = scene.screen ∧
    (st.isSwitchingState = false → SceneInv scene1) ∧
    (∀ sc p, st = State.switching sc p →
      sc ≠ scene.screen ∧ sc ≠ Screen.help ∧ (sc = Screen.terminal → p.isSome = true)) := by
  obtain ⟨hslots, hhelp, hrest⟩ := hinv
  obtain ⟨scr, hp, mn, tm, dv⟩ := scene
  unfold sceneModelUpdate at h
  cases scr
  case menu =>
    cases mn with
    | none => exact Option.noConfusion h
    | some m =>
        simp only [sceneSlotsOk, Option.isSome_some, Option.isNone_iff_eq_none,
          Bool.and_eq_true] at hslots
        obtain ⟨-, hpn, htn, hdn⟩ := hslots
        subst hpn; subst htn; subst hdn
        have hmns : m.state.isSwitchingState = false := by
          simp only [restingOk, Bool.and_eq_true, Bool.not_eq_true'] at hrest
          exact hrest.1
        dsimp only at h
        simp only [Option.map_eq_some'] at h
        obtain ⟨⟨m', st'⟩, hupd, heq⟩ := h
        simp only [Prod.mk.injEq] at heq
        obtain ⟨hs1, hs2⟩ := heq
        subst hs1; subst hs2
        obtain ⟨hsteq, hswshape⟩ := menuUpdate_shape hupd
        refine ⟨rfl, ?_, ?_⟩
        · intro hns
          rw [hsteq] at hns
          exact ⟨by simp [sceneSlotsOk], by simp [helpOk],
            by simp [restingOk, hns]⟩
        · intro sc p hsw
          obtain ⟨hterm, hpsome⟩ := hswshape hmns sc p hsw
          subst hterm
          exact ⟨by simp, by simp, fun _ => hpsome⟩
  case deviceList =>
    cases dv with
    | none => exact Option.noConfusion h
    | some m =>
        simp only [sceneSlotsOk, Option.isSome_some, Option.isNone_iff_eq_none,
          Bool.and_eq_true] at hslots
        obtain ⟨-, hmn, hpn, htn⟩ := hslots
        subst hmn; subst hpn; subst htn
        have hmns : m.state.isSwitchingState = false := by
          simp only [restingOk, Bool.and_eq_true, Bool.not_eq_true'] at hrest
          exact hrest.2.2.2
        dsimp only at h
        simp only [Option.map_eq_some'] at h
        obtain ⟨⟨m', st'⟩, hupd, heq⟩ := h
        simp only [Prod.mk.injEq] at heq
        obtain ⟨hs1, hs2⟩ := heq
        subst hs1; subst hs2
        obtain ⟨hsteq, hswshape⟩ := deviceListUpdate_shape hupd
        refine ⟨rfl, ?_, ?_⟩
        · intro hns
          rw [hsteq] at hns
          exact ⟨by simp [sceneSlotsOk], by simp [helpOk],
            by simp [restingOk, hns]⟩
        · intro sc p hsw
          have hmenu := hswshape hmns sc p hsw
          subst hmenu
          exact ⟨by simp, by simp, by simp⟩
  case terminal =>
    cases tm with
    | none => exact Option.noConfusion h
    | some m =>
        simp only [sceneSlotsOk, Option.isSome_some, Option.isNone_iff_eq_none,
          Bool.and_eq_true] at hslots
        obtain ⟨-, hmn, hpn, hdn⟩ := hslots
        subst hmn; subst hpn; subst hdn
        have hmns : m.state.isSwitchingState = false := by
          simp only [restingOk, Bool.and_eq_true, Bool.not_eq_true'] at hrest
          exact hrest.2.2.1
        dsimp only at h
        simp only [Option.map_eq_some'] at h
        obtain ⟨⟨m', st'⟩, hupd, heq⟩ := h
        simp only [Prod.mk.injEq] at heq
        obtain ⟨hs1, hs2⟩ := heq
        subst hs1; subst hs2
        obtain ⟨hsteq, hswshape⟩ := terminalUpdate_shape hupd
        refine ⟨rfl, ?_, ?_⟩
        · intro hns
          rw [hsteq] at hns
          exact ⟨by simp [sceneSlotsOk], by simp [helpOk],
            by simp [restingOk, hns]⟩
        · intro sc p hsw
          have hx := hswshape hmns
          rw [hsw] at hx
          simp [State.isSwitchingState] at hx
  case help =>
    cases hp with
    | none => exact Option.noConfusion h
    | some m =>
        simp only [sceneSlotsOk, Option.isSome_some, Option.isNone_iff_eq_none,
          Bool.and_eq_true] at hslots
        obtain ⟨-, hmn, htn, hdn⟩ := hslots
        subst hmn; subst htn; subst hdn
        have hmns : m.state.isSwitchingState = false := by
          simp only [restingOk, Bool.and_eq_true, Bool.not_eq_true'] at hrest
          exact hrest.2.1
        have hcne : m.caller ≠ Screen.help := by
          intro hx
          simp [helpOk, hx] at hhelp
        have hcp : m.caller = Screen.terminal → m.parameters.isSome = true := by
          intro hx
          simp only [helpOk, hx, if_neg (by decide : ¬ Screen.terminal = Screen.help),
            if_pos rfl, Bool.true_and] at hhelp
          exact hhelp
        dsimp only at h
        simp only [Option.map_eq_some'] at h
        obtain ⟨⟨m', st'⟩, hupd, heq⟩ := h
        simp only [Prod.mk.injEq] at heq
        obtain ⟨hs1, hs2⟩ := heq
        subst hs1; subst hs2
        obtain ⟨hsteq, hcall, hparams, hswshape⟩ := helpUpdate_shape hupd
        refine ⟨rfl, ?_, ?_⟩
        · intro hns
          rw [hsteq] at hns
          refine ⟨by simp [sceneSlotsOk], ?_, by simp [restingOk, hns]⟩
          simpa [helpOk, hcall, hparams] using hhelp
        · intro sc p hsw
          obtain ⟨hsc, hpp⟩ := hswshape hmns sc p hsw
          subst hsc
          subst hpp
          exact ⟨hcne, hcne, hcp⟩


theorem mainUpdate_inv {a : AppState} {msg : Message} {a' : AppState}
    (h : mainUpdate a msg = some a') (hinv : SceneInv a.scene) : SceneInv a'.scene := by
  unfold mainUpdate at h
  cases hsu : sceneModelUpdate a.scene msg with
  | none => rw [hsu] at h; exact Option.noConfusion h
  | some r =>
      obtain ⟨scene1, st⟩ := r
      rw [hsu] at h
      obtain ⟨hscr, hok, hprov⟩ := sceneModelUpdate_shape hsu hinv
      cases st with
      | switching sc p =>
          dsimp only at h
          cases hsw : switchScreen scene1 sc p a.flag a.serialParams with
          | none => rw [hsw] at h; exact Option.noConfusion h
          | some r2 =>
              obtain ⟨scene2, f2, sp2⟩ := r2
              rw [hsw] at h
              simp only [Option.some.injEq] at h
              subst h
              obtain ⟨hne, hnh, hterm⟩ := hprov sc p rfl
              exact switchScreen_inv hsw
                (fun hx => absurd (hx.symm.trans hscr) hne)
                (fun hx => absurd hx hnh)
      | running =>
          dsimp only at h
          simp only [Option.some.injEq] at h
          subst h
          exact hok rfl
      | pausing =>
          dsimp only at h
          simp only [Option.some.injEq] at h
          subst h
          exact hok rfl
      | stopping =>
          dsimp only at h
          simp only [Option.some.injEq] at h
          subst h
          exact hok rfl
      | error e =>
          dsimp only at h
          simp only [Option.some.injEq] at h
          subst h
          exact hok rfl

theorem step_inv {a : AppState} {k : KeyPress} {a' : AppState}
    (h : step a k = some a') (hinv : SceneInv a.scene) : SceneInv a'.scene := by
  unfold step at h
  cases hg : getMessage a.scene k with
  | none => rw [hg] at h; exact Option.noConfusion h
  | some om =>
      rw [hg] at h
      cases om with
      | none =>
          dsimp only at h
          simp only [Option.some.injEq] at h
          subst h
          exact hinv
      | some msg =>
          cases msg with
          | quit =>
              dsimp only at h
              simp only [Option.some.injEq] at h
              subst h
              exact hinv
          | switching s p =>
              dsimp only at h
              simp only [Option.map_eq_some'] at h
              obtain ⟨⟨scene2, f2, sp2⟩, hsw, heq⟩ := h
              subst heq
              obtain ⟨hnt, hhp⟩ := getMessage_switching hg
              exact switchScreen_inv hsw (fun _ => hinv) hhp
          | enter => exact mainUpdate_inv h hinv
          | pause => exact mainUpdate_inv h hinv
          | resume => exact mainUpdate_inv h hinv
          | rx bs => exact mainUpdate_inv h hinv
          | backspace => exact mainUpdate_inv h hinv
          | input c => exact mainUpdate_inv h hinv
          | nextElement => exact mainUpdate_inv h hinv
          | previousElement => exact mainUpdate_inv h hinv

theorem foldlM_step_inv (ks : List KeyPress) :
    ∀ (a0 a : AppState), SceneInv a0.scene → ks.foldlM step a0 = some a →
      SceneInv a.scene := by
  induction ks with
  | nil =>
      intro a0 a h0 h
      simp only [List.foldlM_nil] at h
      cases h
      exact h0
  | cons k ks ih =>
      intro a0 a h0 h
      rw [List.foldlM_cons] at h
      cases hs : step a0 k with
      | none => rw [hs] at h; simp at h
      | some a1 =>
          rw [hs] at h
          simp only [Option.pure_def, Option.bind_eq_bind, Option.some_bind] at h
          exact ih a1 a (step_inv hs h0) h

theorem run_inv {ks : List KeyPress} {a : AppState} (h : run ks = some a) :
    SceneInv a.scene :=
  foldlM_step_inv ks appInit a ⟨rfl, rfl, rfl⟩ h



/-- C3: in every application state reachable by the loop from the initial
scene — driven by an arbitrary sequence of user key events; the loop's
other event kinds do not alter the scene slots — exactly one of the four
screen-model slots (menu, help, device_list, terminal) is populated,
namely the slot of the active `Screen` tag (`sceneSlotsOk`).  Moreover
every `switch_screen` call that targets a different screen and returns
sets all other slots to `None` and installs a freshly constructed model
for the target screen. -/
theorem c3_one_live_screen_model :
    (∀ ks a, run ks = some a → sceneSlotsOk a.scene = true) ∧
    (∀ scene new pp flag sp scene' f' sp',
      switchScreen scene new pp flag sp = some (scene', f', sp') →
      scene.screen ≠ new →
      scene'.screen = new ∧ sceneSlotsOk scene' = true ∧
      (new = Screen.menu →
        scene'.menu = some (match pp with
          | some p => MenuModel.new p
          | Option.none => MenuModel.default) ∧
        scene'.help = Option.none ∧ scene'.terminal = Option.none ∧
        scene'.device_list = Option.none) ∧
      (new = Screen.deviceList →
        scene'.device_list = some DeviceListModel.default ∧
        scene'.menu = Option.none ∧ scene'.help = Option.none ∧
        scene'.terminal = Option.none) ∧
      (new = Screen.help →
        scene'.help = some (HelpModel.new scene.screen pp) ∧
        scene'.menu = Option.none ∧ scene'.terminal = Option.none ∧
        scene'.device_list = Option.none) ∧
      (new = Screen.terminal →
        ∃ p t, pp = some p ∧ TerminalModel.new p = some t ∧
          scene'.terminal = some t ∧ scene'.menu = Option.none ∧
          scene'.help = Option.none ∧ scene'.device_list = Option.none)) := by
  constructor
  · intro ks a h
    exact (run_inv h).1
  · intro scene new pp flag sp scene' f' sp' h hne
    unfold switchScreen at h
    rw [if_neg (fun hx => hne hx)] at h
    cases new with
    | menu =>
        simp only [Option.some.injEq, Prod.mk.injEq] at h
        obtain ⟨h1, -⟩ := h
        subst h1
        refine ⟨rfl, by simp [sceneSlotsOk], by simp, by simp, by simp, by simp⟩
    | deviceList =>
        simp only [Option.some.injEq, Prod.mk.injEq] at h
        obtain ⟨h1, -⟩ := h
        subst h1
        refine ⟨rfl, by simp [sceneSlotsOk], by simp, by simp, by simp, by simp⟩
    | help =>
        simp only [Option.some.injEq, Prod.mk.injEq] at h
        obtain ⟨h1, -⟩ := h
        subst h1
        refine ⟨rfl, by simp [sceneSlotsOk], by simp, by simp, by simp, by simp⟩
    | terminal =>
        dsimp only at h
        cases pp with
        | none => exact Option.noConfusion h
        | some params =>
            dsimp only at h
            cases ht : TerminalModel.new params with
            | none => rw [ht] at h; exact Option.noConfusion h
            | some t =>
                rw [ht] at h
                simp only [Option.some.injEq, Prod.mk.injEq] at h
                obtain ⟨h1, -⟩ := h
                subst h1
                exact ⟨rfl, by simp [sceneSlotsOk], by simp, by simp, by simp,
                  fun _ => ⟨params, t, rfl, ht, rfl, rfl, rfl, rfl⟩⟩

/-- Witness for C3: the reachability half evaluated on the concrete
26-key run that configures and opens the Scenario A terminal, and the
switch half evaluated on a concrete `switch_screen` into DeviceList. -/
theorem c3_one_live_screen_model_witness :
    sceneSlotsOk terminalAppState.scene = true ∧
    dlScene.screen = Screen.deviceList ∧ sceneSlotsOk dlScene = true :=
  ⟨c3_one_live_screen_model.1 (typingKeys ++ [{ ctrl := false, code := KeyCode.enterKey }])
      terminalAppState (by rfl),
   (c3_one_live_screen_model.2 Scene.default .deviceList Option.none false
      PortParameters.default dlScene false PortParameters.default rfl (by decide)).1,
   (c3_one_live_screen_model.2 Scene.default .deviceList Option.none false
      PortParameters.default dlScene false PortParameters.default rfl (by decide)).2.1⟩

/-- C4: for every reachable application state, the key-to-message mapping
never produces `Message::Switching(Terminal, p)` for any `p` (so in
particular never `Switching(Terminal, None)`), and the active screen
model's update never returns `State::Switching(Terminal, None)`: whenever
it returns a Terminal switch, the parameter option is `Some`, so the
`expect` on the parameters in `switch_screen`'s Terminal branch cannot
fail. -/
theorem c4_terminal_switch_has_params :
    ∀ ks a, run ks = some a →
      (∀ k p, getMessage a.scene k ≠ some (some (.switching .terminal p))) ∧
      (∀ msg scene1 st, sceneModelUpdate a.scene msg = some (scene1, st) →
        st ≠ .switching .terminal Option.none ∧
        (∀ p, st = .switching Screen.terminal p → p.isSome = true)) := by
  intro ks a h
  have hinv := run_inv h
  constructor
  · intro k p hg
    exact absurd rfl (getMessage_switching hg).1
  · intro msg scene1 st hsu
    obtain ⟨-, -, hprov⟩ := sceneModelUpdate_shape hsu hinv
    constructor
    · intro hx
      have hps := (hprov _ _ hx).2.2 rfl
      exact Bool.noConfusion hps
    · intro p hx
      exact (hprov _ _ hx).2.2 rfl

/-- Witness for C4: on the reachable state whose menu is filled with
Scenario A's values and Start selected, ctrl+n cannot produce a Terminal
switch message, and Enter's `Switching(Terminal, p)` carries
`p = Some(asciiParams)`. -/
theorem c4_terminal_switch_has_params_witness :
    getMessage menuReadyAppState.scene ⟨true, KeyCode.char 'n'⟩ ≠
      some (some (Message.switching Screen.terminal Option.none)) ∧
    (some asciiParams : Option PortParameters).isSome = true :=
  ⟨(c4_terminal_switch_has_params typingKeys menuReadyAppState rfl).1
      ⟨true, KeyCode.char 'n'⟩ Option.none,
   ((c4_terminal_switch_has_params typingKeys menuReadyAppState rfl).2
      Message.enter _ _ rfl).2 (some asciiParams) rfl⟩

end Nolp
